import Mathlib

set_option linter.unusedVariables false

/-!
# trashgb: verification of the natural-language specification

A shallow embedding of the trashgb Game Boy emulator (src/cpu.rs,
src/mmu.rs, src/ppu.rs, src/registers.rs) in Lean 4, with theorems
settling the specification's claims about it.

Conventions of the embedding:
* machine bytes and words are `Nat` with explicit `% 256` / `% 65536`
  where the Rust `u8`/`u16` arithmetic wraps (release semantics; the
  spec's §7 prescribes wrapping for 16-bit pointer arithmetic);
* fixed-size Rust arrays (`[u8; N]`) become total functions `Nat → Nat`
  (indices used by the code are in range by construction);
* growable vectors (`Vec<[u8; N]>`, the ROM and external-RAM bank lists)
  become `List (Nat → Nat)`, indexed fallibly with `List.get?`;
* Rust code that can panic (out-of-bounds vector index, `%` by zero)
  returns `Option`; `none` is a panic.
-/

namespace Trashgb

/-- Point update of a memory region (`arr[i] = v` on a `Nat → Nat` region). -/
def upd (f : Nat → Nat) (i v : Nat) : Nat → Nat :=
  fun j => if j = i then v else f j

/-- 16-bit wrapping add, as Rust release-mode `u16` addition. -/
def wadd16 (x y : Nat) : Nat := (x + y) % 65536

/-- 16-bit wrapping subtract, as Rust release-mode `u16` subtraction. -/
def wsub16 (x y : Nat) : Nat := (x + (65536 - y % 65536)) % 65536

/-- Joypad button state (src/mmu.rs `struct Joypad`). -/
structure Joypad where
  a : Bool
  b : Bool
  start : Bool
  select : Bool
  up : Bool
  down : Bool
  left : Bool
  right : Bool

/-- Joypad.read_state (src/mmu.rs): low nibble of the joypad port for the
given selector (`true` = buttons, `false` = directions), 0 = pressed. -/
def Joypad.read_state (j : Joypad) (sel : Bool) : Nat :=
  match sel with
  | true =>
    let state := 0xF
    let state := if j.a then state &&& 0b1110 else state
    let state := if j.b then state &&& 0b1101 else state
    let state := if j.select then state &&& 0b1011 else state
    let state := if j.start then state &&& 0b0111 else state
    state
  | false =>
    let state := 0xF
    let state := if j.right then state &&& 0b1110 else state
    let state := if j.left then state &&& 0b1101 else state
    let state := if j.up then state &&& 0b1011 else state
    let state := if j.down then state &&& 0b0111 else state
    state

/-- The MMU state (src/mmu.rs `struct Mmu`). Region sizes as in the
source: bootstrap 0x100, ROM banks of 0x4000, vram 0x2000, eram banks of
0x2000, wram1/wram2 0x2000 each, oam 0xA0, io 0x80, hram 0x7F. -/
structure Mmu where
  bootstrap : Nat → Nat
  rom : List (Nat → Nat)
  vram : Nat → Nat
  eram : List (Nat → Nat)
  wram1 : Nat → Nat
  wram2 : Nat → Nat
  oam : Nat → Nat
  io : Nat → Nat
  hram : Nat → Nat
  ie : Nat
  title : Nat → Nat
  cartridge_type : Nat
  rom_size : Nat
  ram_size : Nat
  ram_enable : Bool
  rom_bank : Nat
  rom_mode : Nat
  window_counter : Nat
  timer : Nat
  joypad : Joypad

/-- Mmu::new (src/mmu.rs). The bootstrap bytes come from an asset file
(roms/bootstrap.gb) embedded with include_bytes!, whose contents are not
part of the sources; they are a parameter here. -/
def Mmu.new (boot : Nat → Nat) : Mmu where
  bootstrap := boot
  rom := []
  vram := fun _ => 0
  eram := []
  wram1 := fun _ => 0
  wram2 := fun _ => 0
  oam := fun _ => 0
  io := fun _ => 0
  hram := fun _ => 0
  ie := 0
  title := fun _ => 0
  cartridge_type := 0
  rom_size := 0
  ram_size := 0
  ram_enable := false
  rom_bank := 1
  rom_mode := 0
  window_counter := 0
  timer := 0
  joypad := ⟨false, false, false, false, false, false, false, false⟩

/-- Mmu::read_byte (src/mmu.rs). `none` is a Rust panic: an out-of-bounds
index into the ROM or external-RAM bank vectors, or `%` by a zero
`rom_size`. -/
def Mmu.read_byte (m : Mmu) (address : Nat) : Option Nat :=
  if address ≤ 0x00FF then
    if m.io 0x50 = 0 then
      some (m.bootstrap address)
    else if m.rom_mode = 0 then
      (m.rom.get? 0).map fun b => b address
    else
      let bank := m.rom_bank &&& 0b01100000
      if m.rom_size = 0 then none
      else (m.rom.get? (bank % m.rom_size)).map fun b => b address
  else if address ≤ 0x3FFF then
    if m.rom_mode = 0 then
      (m.rom.get? 0).map fun b => b address
    else
      let bank := m.rom_bank &&& 0b01100000
      if m.rom_size = 0 then none
      else (m.rom.get? (bank % m.rom_size)).map fun b => b address
  else if address ≤ 0x7FFF then
    if m.rom_size < 2 then some 0xFF
    else
      let bank :=
        if m.rom_bank ≤ 1 then 1
        else if 2 ≤ m.rom_bank ∧ m.rom_bank < 96 ∧ m.rom_bank < m.rom_size then m.rom_bank
        else if m.rom_bank &&& 0b00011111 = 0 then 1
        else m.rom_bank % m.rom_size
      (m.rom.get? bank).map fun b => b (address - 0x4000)
  else if address ≤ 0x9FFF then some (m.vram (address - 0x8000))
  else if address ≤ 0xBFFF then
    if m.ram_enable ∧ m.ram_size > 0 then
      if m.rom_mode = 1 ∧ m.ram_size > 1 then
        let bank := (m.rom_bank &&& 0b01100000) >>> 5
        (m.eram.get? bank).map fun b => b (address - 0xA000)
      else
        (m.eram.get? 0).map fun b => b (address - 0xA000)
    else some 0xFF
  else if address ≤ 0xCFFF then some (m.wram1 (address - 0xC000))
  else if address ≤ 0xDFFF then some (m.wram2 (address - 0xD000))
  else if address ≤ 0xFDFF then some 0xFF
  else if address ≤ 0xFE9F then some (m.oam (address - 0xFE00))
  else if address ≤ 0xFEFF then some 0xFF
  else if address ≤ 0xFF7F then some (m.io (address - 0xFF00))
  else if address ≤ 0xFFFE then some (m.hram (address - 0xFF80))
  else some m.ie

/-- Mmu::read_word (src/mmu.rs): little-endian pair of read_byte. -/
def Mmu.read_word (m : Mmu) (address : Nat) : Option Nat := do
  let low ← m.read_byte address
  let high ← m.read_byte (wadd16 address 1)
  return (high <<< 8) ||| low

/-- The joypad-port latch computation shared by the `FF00` write arm of
Mmu::write_byte and the joypad_* methods (src/mmu.rs): given the byte
just stored in io[0], recompute its low nibble from the joypad state
according to the two selector bits. -/
def joypadLatch (j : Joypad) (io0 : Nat) : Nat :=
  match (io0 &&& 0b00110000) >>> 4 with
  | 0b00 => ((io0 &&& 0b11110000) + j.read_state true) ||| j.read_state false
  | 0b01 => (io0 &&& 0b11110000) + j.read_state true
  | 0b10 => (io0 &&& 0b11110000) + j.read_state false
  | _ => io0 ||| 0b00001111

/-- The DMA copy loop of Mmu::write_byte's `FF46` arm (src/mmu.rs): for
i in 0..0xA0, `write_byte(0xFE00 + i, read_byte(start + i))`. Each inner
write lands in the OAM arm (addresses 0xFE00..=0xFE9F), so it is the OAM
store; the reads go through read_byte on the state mutated so far. -/
def Mmu.dmaCopy (m : Mmu) (start : Nat) : Nat → Option Mmu
  | 0 => some m
  | n + 1 => do
    let v ← m.read_byte (start + (0xA0 - (n + 1)))
    Mmu.dmaCopy { m with oam := upd m.oam (0xA0 - (n + 1)) v } start n

/-- Mmu::write_byte (src/mmu.rs). `none` is a Rust panic (out-of-bounds
external-RAM bank, or a failing read during DMA). The source handles
`FF04` by zeroing the timer and then falling through to the plain IO
store of the final match; that combined effect is one arm here. -/
def Mmu.write_byte (m : Mmu) (address value : Nat) : Option Mmu :=
  if address = 0xFF00 then
    some { m with io := upd m.io 0x00 (joypadLatch m.joypad value) }
  else if address = 0xFF04 then
    some { m with timer := 0, io := upd m.io 0x04 value }
  else
    if address = 0xFF46 then
      m.dmaCopy (value <<< 8) 0xA0
    else if address ≤ 0x1FFF then
      some { m with ram_enable := (value &&& 0x0F == 0x0A) && (m.ram_size != 0) }
    else if address ≤ 0x3FFF then
      some { m with rom_bank := (m.rom_bank &&& 0b11100000) ||| (value &&& 0b00011111) }
    else if address ≤ 0x5FFF then
      some { m with rom_bank := (m.rom_bank &&& 0b00011111) ||| ((value &&& 0b00000011) <<< 5) }
    else if address ≤ 0x7FFF then
      some { m with rom_mode := value &&& 0x01 }
    else if address ≤ 0x9FFF then
      some { m with vram := upd m.vram (address - 0x8000) value }
    else if address ≤ 0xBFFF then
      if m.ram_enable then
        let bank := (m.rom_bank &&& 0b01100000) >>> 5
        if m.rom_mode = 1 ∧ m.ram_size > 1 then
          match m.eram.get? bank with
          | some b => some { m with eram := m.eram.set bank (upd b (address - 0xA000) value) }
          | none => none
        else
          match m.eram.get? 0 with
          | some b => some { m with eram := m.eram.set 0 (upd b (address - 0xA000) value) }
          | none => none
      else some m
    else if address ≤ 0xCFFF then
      some { m with wram1 := upd m.wram1 (address - 0xC000) value }
    else if address ≤ 0xDFFF then
      some { m with wram2 := upd m.wram2 (address - 0xD000) value }
    else if address ≤ 0xFDFF then some m
    else if address ≤ 0xFE9F then
      some { m with oam := upd m.oam (address - 0xFE00) value }
    else if address ≤ 0xFEFF then some m
    else if address ≤ 0xFF7F then
      some { m with io := upd m.io (address - 0xFF00) value }
    else if address ≤ 0xFFFE then
      some { m with hram := upd m.hram (address - 0xFF80) value }
    else some { m with ie := value }

/-- Mmu::write_word (src/mmu.rs): low byte at address, high byte at
address+1. -/
def Mmu.write_word (m : Mmu) (address value : Nat) : Option Mmu := do
  let m ← m.write_byte address (value % 256)
  m.write_byte (wadd16 address 1) ((value >>> 8) % 256)

/-- Mmu::increment_timer (src/mmu.rs): advance the internal 16-bit
counter by cycles*4 T-cycles, latch the old high byte into io[4] (DIV),
and when TAC enable is set and the selected counter slice changed,
increment TIMA with reload-from-TMA on overflow. Returns the new state
and whether a timer interrupt fired. -/
def Mmu.increment_timer (m : Mmu) (cycles : Nat) : Mmu × Bool :=
  let cycles := cycles * 4
  let timer := (m.timer + cycles) % 65536
  let m := { m with io := upd m.io 0x04 ((m.timer >>> 8) % 256) }
  if m.io 0x07 &&& 0b100 ≠ 0 then
    let shift : Nat :=
      match m.io 0x07 &&& 0b00000011 with
      | 0b00 => 10
      | 0b01 => 4
      | 0b10 => 6
      | _ => 8
    if timer >>> shift ≠ m.timer >>> shift then
      let m := { m with io := upd m.io 0x05 ((m.io 0x05 + 1) % 256) }
      if m.io 0x05 = 0 then
        ({ m with io := upd m.io 0x05 (m.io 0x06), timer := timer }, true)
      else ({ m with timer := timer }, false)
    else ({ m with timer := timer }, false)
  else ({ m with timer := timer }, false)

/-- CPU flag bits (src/registers.rs `struct Flags`). The source stores
each flag in a `Cell<bool>`; here they are plain `Bool` fields. -/
structure Flags where
  zero : Bool
  subtract : Bool
  half_carry : Bool
  carry : Bool
deriving DecidableEq

/-- Flags::get_condition (src/registers.rs): decode a 2-bit branch
condition (NZ, Z, NC, C). The decoder only passes values 0..3. -/
def Flags.get_condition (f : Flags) (flag : Nat) : Bool :=
  match flag with
  | 0b000 => !f.zero
  | 0b001 => f.zero
  | 0b010 => !f.carry
  | _ => f.carry

/-- Flags::to_u8 (src/registers.rs): Z in bit 7, N in bit 6, HC in bit 5,
C in bit 4. -/
def Flags.to_u8 (f : Flags) : Nat :=
  ((if f.zero then 1 else 0) <<< 7)
    ||| ((if f.subtract then 1 else 0) <<< 6)
    ||| ((if f.half_carry then 1 else 0) <<< 5)
    ||| ((if f.carry then 1 else 0) <<< 4)

/-- Flags::set_from_u8 (src/registers.rs): restore the four flags from
bits 7..4 of a byte. -/
def Flags.set_from_u8 (value : Nat) : Flags where
  zero := (value >>> 7) &&& 0b1 == 1
  subtract := (value >>> 6) &&& 0b1 == 1
  half_carry := (value >>> 5) &&& 0b1 == 1
  carry := (value >>> 4) &&& 0b1 == 1

/-- The eight byte registers and flags (src/registers.rs
`struct Registers`); `Cell<u8>` becomes a plain byte. -/
structure Registers where
  a : Nat
  b : Nat
  c : Nat
  d : Nat
  e : Nat
  h : Nat
  l : Nat
  flags : Flags

/-- Registers::new (src/registers.rs). -/
def Registers.new : Registers where
  a := 100
  b := 210
  c := 32
  d := 41
  e := 120
  h := 222
  l := 11
  flags := ⟨false, false, false, false⟩

/-! ## The standalone instruction helpers of src/cpu.rs

Each of the following mirrors one of the free functions at the bottom of
src/cpu.rs. The source functions act on `Cell<u8>` / `&mut u8` operands
and a `&Flags`; here they are pure functions from the operand byte(s)
and incoming flags to the result byte and outgoing flags. The `imm8`
variants of the arithmetic group (add_a_imm8 and friends) have bodies
identical to their `r8` counterparts and are aliases. -/

/-- add_a_r8 (src/cpu.rs). -/
def add_a_r8 (a r8 : Nat) (flags : Flags) : Nat × Flags :=
  let result := (a + r8) % 256
  (result,
    { zero := result == 0
      carry := 256 ≤ a + r8
      subtract := false
      half_carry := (a &&& 0xF) + (r8 &&& 0xF) > 0xF })

/-- adc_a_r8 (src/cpu.rs). -/
def adc_a_r8 (a imm8 : Nat) (flags : Flags) : Nat × Flags :=
  if !flags.carry then
    ((a + imm8) % 256,
      { flags with
        half_carry := (a &&& 0xF) + (imm8 &&& 0xF) > 0xF
        carry := a + imm8 > 0xFF
        zero := (a + imm8) % 256 == 0
        subtract := false })
  else
    ((a + imm8 + 1) % 256,
      { flags with
        half_carry := (a &&& 0xF) + (imm8 &&& 0xF) + 1 > 0xF
        carry := a + imm8 + 1 > 0xFF
        zero := (a + imm8 + 1) % 256 == 0
        subtract := false })

/-- sub_a_r8 (src/cpu.rs); u8 overflowing_sub wraps, overflow iff a < r8. -/
def sub_a_r8 (a r8 : Nat) (flags : Flags) : Nat × Flags :=
  let result := (a + 256 - r8 % 256) % 256
  (result,
    { zero := result == 0
      carry := a < r8
      subtract := true
      half_carry := (a &&& 0xF) < (r8 &&& 0xF) })

/-- sbc_a_r8 (src/cpu.rs); a is widened to u16 and wrapping_sub is mod
65536, truncated back to a byte. -/
def sbc_a_r8 (a imm8 : Nat) (flags : Flags) : Nat × Flags :=
  let c := if flags.carry then 1 else 0
  let result := ((a + 65536 - (imm8 + c) % 65536) % 65536) % 256
  (result,
    { half_carry := a &&& 0xF < (imm8 &&& 0xF) + c
      carry := a < imm8 + c
      zero := result == 0
      subtract := true })

/-- and_a_r8 (src/cpu.rs). -/
def and_a_r8 (a r8 : Nat) (flags : Flags) : Nat × Flags :=
  let result := a &&& r8
  (result, { zero := result == 0, carry := false, subtract := false, half_carry := true })

/-- xor_a_r8 (src/cpu.rs). -/
def xor_a_r8 (a r8 : Nat) (flags : Flags) : Nat × Flags :=
  let result := a ^^^ r8
  (result, { zero := result == 0, carry := false, subtract := false, half_carry := false })

/-- or_a_r8 (src/cpu.rs). -/
def or_a_r8 (a r8 : Nat) (flags : Flags) : Nat × Flags :=
  let result := a ||| r8
  (result, { zero := result == 0, carry := false, subtract := false, half_carry := false })

/-- cp_a_r8 (src/cpu.rs): compare without writing A. -/
def cp_a_r8 (a r8 : Nat) (flags : Flags) : Flags :=
  { zero := (a + 256 - r8 % 256) % 256 == 0
    carry := a < r8
    subtract := true
    half_carry := (a &&& 0xF) < (r8 &&& 0xF) }

/-- add_a_imm8 (src/cpu.rs): same body as add_a_r8. -/
def add_a_imm8 : Nat → Nat → Flags → Nat × Flags := add_a_r8

/-- adc_a_imm8 (src/cpu.rs): same body as adc_a_r8. -/
def adc_a_imm8 : Nat → Nat → Flags → Nat × Flags := adc_a_r8

/-- sub_a_imm8 (src/cpu.rs): same body as sub_a_r8. -/
def sub_a_imm8 : Nat → Nat → Flags → Nat × Flags := sub_a_r8

/-- sbc_a_imm8 (src/cpu.rs): same body as sbc_a_r8. -/
def sbc_a_imm8 : Nat → Nat → Flags → Nat × Flags := sbc_a_r8

/-- and_a_imm8 (src/cpu.rs): same body as and_a_r8. -/
def and_a_imm8 : Nat → Nat → Flags → Nat × Flags := and_a_r8

/-- xor_a_imm8 (src/cpu.rs): same body as xor_a_r8. -/
def xor_a_imm8 : Nat → Nat → Flags → Nat × Flags := xor_a_r8

/-- or_a_imm8 (src/cpu.rs): same body as or_a_r8. -/
def or_a_imm8 : Nat → Nat → Flags → Nat × Flags := or_a_r8

/-- cp_a_imm8 (src/cpu.rs): same body as cp_a_r8. -/
def cp_a_imm8 : Nat → Nat → Flags → Flags := cp_a_r8

/-- inc_r8 (src/cpu.rs): carry flag untouched. -/
def inc_r8 (v : Nat) (flags : Flags) : Nat × Flags :=
  let result := (v + 1) % 256
  (result,
    { flags with
      subtract := false
      zero := result == 0
      half_carry := (v &&& 0xF) + 1 > 0xF })

/-- dec_r8 (src/cpu.rs): carry flag untouched. -/
def dec_r8 (v : Nat) (flags : Flags) : Nat × Flags :=
  let result := (v + 255) % 256
  (result,
    { flags with
      subtract := true
      zero := result == 0
      half_carry := (v &&& 0xF) < 1 })

/-- inc_r16 (src/cpu.rs): byte-pair increment with carry into the high
byte. -/
def inc_r16 (hi lo : Nat) : Nat × Nat :=
  let result := (lo + 1) % 256
  if 256 ≤ lo + 1 then ((hi + 1) % 256, result) else (hi, result)

/-- dec_r16 (src/cpu.rs): byte-pair decrement with borrow from the high
byte. -/
def dec_r16 (hi lo : Nat) : Nat × Nat :=
  let result := (lo + 255) % 256
  if lo = 0 then ((hi + 255) % 256, result) else (hi, result)

/-- add_hl_r16 / add_hl_sp (src/cpu.rs): both add a 16-bit value into HL
with the same flag computation; the operand is already a word here. -/
def add_hl_r16 (hl r16 : Nat) (flags : Flags) : Nat × Flags :=
  let result := (hl + r16) % 65536
  (result,
    { flags with
      subtract := false
      half_carry := (hl &&& 0xFFF) + (r16 &&& 0xFFF) > 0xFFF
      carry := 65536 ≤ hl + r16 })

/-- bit_b3_r8 (src/cpu.rs): test bit, carry untouched. -/
def bit_b3_r8 (bit_index v : Nat) (flags : Flags) : Flags :=
  { flags with
    zero := (v >>> bit_index) &&& 1 == 0
    subtract := false
    half_carry := true }

/-- res_b3_r8 (src/cpu.rs): clear bit `bit_index` (mask = !(1 <<
bit_index) on u8; the decoder only passes bit indices 0..7). -/
def res_b3_r8 (bit_index v : Nat) : Nat :=
  v &&& (0xFF ^^^ ((1 <<< bit_index) % 256))

/-- set_b3_r8 (src/cpu.rs): set bit `bit_index`. -/
def set_b3_r8 (bit_index v : Nat) : Nat :=
  v ||| ((1 <<< bit_index) % 256)

/-- rlc_r8 (src/cpu.rs): u8 rotate left by 1; carry from the bit rotated
into position 0. -/
def rlc_r8 (v : Nat) (flags : Flags) : Nat × Flags :=
  let result := ((v <<< 1) ||| (v >>> 7)) % 256
  (result,
    { zero := result == 0
      carry := result &&& 0b00000001 == 1
      subtract := false
      half_carry := false })

/-- rrc_r8 (src/cpu.rs): u8 rotate right by 1; carry from the bit rotated
into position 7. -/
def rrc_r8 (v : Nat) (flags : Flags) : Nat × Flags :=
  let result := ((v >>> 1) ||| ((v &&& 1) <<< 7)) % 256
  (result,
    { zero := result == 0
      carry := (result &&& 0b10000000) >>> 7 == 1
      subtract := false
      half_carry := false })

/-- rl_r8 (src/cpu.rs): rotate left through carry. -/
def rl_r8 (v : Nat) (flags : Flags) : Nat × Flags :=
  let overflow := v &&& 0b10000000 ≠ 0
  let result := ((v <<< 1) ||| (if flags.carry then 1 else 0)) % 256
  (result,
    { zero := result == 0
      carry := overflow
      subtract := false
      half_carry := false })

/-- rr_r8 (src/cpu.rs): rotate right through carry. -/
def rr_r8 (v : Nat) (flags : Flags) : Nat × Flags :=
  let overflow := v &&& 0b00000001 ≠ 0
  let result := ((v >>> 1) ||| ((if flags.carry then 1 else 0) <<< 7)) % 256
  (result,
    { zero := result == 0
      carry := overflow
      subtract := false
      half_carry := false })

/-- cpl (src/cpu.rs): complement A (u8 bitwise not). -/
def cpl (a : Nat) (flags : Flags) : Nat × Flags :=
  (0xFF ^^^ (a % 256), { flags with subtract := true, half_carry := true })

/-- swap_r8 (src/cpu.rs): `rotate_left(4) | rotate_right(4)`; for u8 the
two rotations coincide, giving the nibble swap. -/
def swap_r8 (v : Nat) (flags : Flags) : Nat × Flags :=
  let rotl := ((v <<< 4) % 256) ||| (v >>> 4)
  let rotr := (v >>> 4) ||| ((v <<< 4) % 256)
  let result := rotl ||| rotr
  (result, { zero := result == 0, carry := false, subtract := false, half_carry := false })

/-- add_sp_imm8 (src/cpu.rs): sp and the signed immediate are widened to
i32; flags use the unsigned low byte / low nibble of both (two's
complement low bits of the immediate). Returns the new sp (as u16). -/
def add_sp_imm8 (sp : Nat) (imm8 : Int) (flags : Flags) : Nat × Flags :=
  let result := (((sp : Int) + imm8).emod 65536).toNat
  (result,
    { zero := false
      carry := (sp % 256 : Int) + imm8.emod 256 > 0xFF
      subtract := false
      half_carry := (sp % 16 : Int) + imm8.emod 16 > 0xF })

/-- srl_r8 (src/cpu.rs): logical shift right. -/
def srl_r8 (v : Nat) (flags : Flags) : Nat × Flags :=
  let result := v >>> 1
  (result,
    { carry := v &&& 0b00000001 == 1
      zero := result == 0
      subtract := false
      half_carry := false })

/-- daa (src/cpu.rs): BCD adjust of A after an arithmetic operation,
driven by the N/HC/C flags. -/
def daa (a : Nat) (flags : Flags) : Nat × Flags :=
  let adjust := if flags.half_carry ∨ (¬flags.subtract ∧ a &&& 0xF > 9) then 0x06 else 0x00
  let carry := flags.carry ∨ (¬flags.subtract ∧ a > 0x99)
  let adjust := if carry then adjust ||| 0x60 else adjust
  let carryFlag := if carry then true else flags.carry
  let result := if flags.subtract then (a + 256 - adjust) % 256 else (a + adjust) % 256
  (result,
    { flags with
      carry := carryFlag
      zero := result == 0
      half_carry := false })

/-- sla_r8 (src/cpu.rs): arithmetic shift left. -/
def sla_r8 (v : Nat) (flags : Flags) : Nat × Flags :=
  let result := (v <<< 1) % 256
  (result,
    { carry := v &&& 0b10000000 ≠ 0
      zero := result == 0
      subtract := false
      half_carry := false })

/-- sra_r8 (src/cpu.rs): arithmetic shift right (bit 7 kept). -/
def sra_r8 (v : Nat) (flags : Flags) : Nat × Flags :=
  let result := (v &&& 0b10000000) ||| (v >>> 1)
  (result,
    { carry := v &&& 0b00000001 == 1
      zero := result == 0
      subtract := false
      half_carry := false })

/-- add_hl_sp_imm8 (src/cpu.rs, the `ld hl, sp + imm8` helper): HL :=
sp + signed immediate (wrapping u16); flags from the unsigned low byte /
nibble adds. -/
def add_hl_sp_imm8 (sp : Nat) (imm8 : Int) (flags : Flags) : Nat × Flags :=
  let hl := (((sp : Int) + imm8).emod 65536).toNat
  (hl,
    { zero := false
      subtract := false
      carry := (sp % 256 : Int) + imm8.emod 256 > 0xFF
      half_carry := (sp % 16 : Int) + imm8.emod 16 > 0xF })

/-! ## The CPU (src/cpu.rs) -/

/-- CPU execution state (src/cpu.rs `enum State`). -/
inductive State where
  | Bootstrap
  | Running
  | Halted
deriving DecidableEq

/-- The CPU state (src/cpu.rs `struct Cpu`). The source's unused
`bootstrap`/`memory` byte vectors, the `last_frame` timestamp and the
(stateless) `ppu` field play no part in `step`/`game_loop` semantics and
are omitted. -/
structure Cpu where
  registers : Registers
  pc : Nat
  sp : Nat
  ime : Bool
  state : State
  mmu : Mmu

/-- Modelled from the spec: `Mmu::get_mut_byte`, called by src/cpu.rs for
the `(HL)` operand, is absent from src/mmu.rs. Per §3's address table and
§9 (register files and memory bytes are plain cells; `(HL)` resolves to
the MMU byte), a `&mut u8` into the MMU's backing storage reads as
`read_byte` does and, on assignment, stores directly into the backing
region — it cannot run `write_byte`'s joypad/DIV/DMA special cases.
Regions with no backing byte (ROM/bootstrap, echo, prohibited) have no
mutable byte: `none`. This is the assignment half; the read half is
`read_byte`. -/
def Mmu.get_mut_store (m : Mmu) (address value : Nat) : Option Mmu :=
  if address ≤ 0x7FFF then none
  else if address ≤ 0x9FFF then
    some { m with vram := upd m.vram (address - 0x8000) value }
  else if address ≤ 0xBFFF then
    if m.ram_enable then
      let bank := (m.rom_bank &&& 0b01100000) >>> 5
      let bank := if m.rom_mode = 1 ∧ m.ram_size > 1 then bank else 0
      match m.eram.get? bank with
      | some b => some { m with eram := m.eram.set bank (upd b (address - 0xA000) value) }
      | none => none
    else none
  else if address ≤ 0xCFFF then
    some { m with wram1 := upd m.wram1 (address - 0xC000) value }
  else if address ≤ 0xDFFF then
    some { m with wram2 := upd m.wram2 (address - 0xD000) value }
  else if address ≤ 0xFDFF then none
  else if address ≤ 0xFE9F then
    some { m with oam := upd m.oam (address - 0xFE00) value }
  else if address ≤ 0xFEFF then none
  else if address ≤ 0xFF7F then
    some { m with io := upd m.io (address - 0xFF00) value }
  else if address ≤ 0xFFFE then
    some { m with hram := upd m.hram (address - 0xFF80) value }
  else some { m with ie := value }

/-- The HL pointer of the `(HL)` operand (src/registers.rs `get_r8`,
`R8::M` arm): `(h << 8) | l`. -/
def Cpu.hl (cpu : Cpu) : Nat :=
  (cpu.registers.h <<< 8) ||| cpu.registers.l

/-- Read a 3-bit r8 operand (src/registers.rs `R8::from_u8` +
`Registers::get_r8`): 0..5 are B,C,D,E,H,L; 6 is the byte at (HL); 7 is
A. The source materializes the memory case as `get_mut_byte`; its
pointee reads as `read_byte`. -/
def Cpu.getR8 (cpu : Cpu) (i : Nat) : Option Nat :=
  match i &&& 0b111 with
  | 0 => some cpu.registers.b
  | 1 => some cpu.registers.c
  | 2 => some cpu.registers.d
  | 3 => some cpu.registers.e
  | 4 => some cpu.registers.h
  | 5 => some cpu.registers.l
  | 6 => cpu.mmu.read_byte cpu.hl
  | _ => some cpu.registers.a

/-- Write a 3-bit r8 operand; the memory case assigns through the
(modelled) `get_mut_byte` reference. -/
def Cpu.setR8 (cpu : Cpu) (i v : Nat) : Option Cpu :=
  match i &&& 0b111 with
  | 0 => some { cpu with registers := { cpu.registers with b := v } }
  | 1 => some { cpu with registers := { cpu.registers with c := v } }
  | 2 => some { cpu with registers := { cpu.registers with d := v } }
  | 3 => some { cpu with registers := { cpu.registers with e := v } }
  | 4 => some { cpu with registers := { cpu.registers with h := v } }
  | 5 => some { cpu with registers := { cpu.registers with l := v } }
  | 6 => (cpu.mmu.get_mut_store cpu.hl v).map fun m => { cpu with mmu := m }
  | _ => some { cpu with registers := { cpu.registers with a := v } }

/-- Replace the flags. -/
def Cpu.withFlags (cpu : Cpu) (f : Flags) : Cpu :=
  { cpu with registers := { cpu.registers with flags := f } }

/-- A byte read as Rust `i8` (the `as i8` casts in src/cpu.rs). -/
def i8val (v : Nat) : Int :=
  if v % 256 < 128 then (v % 256 : Nat) else (v % 256 : Int) - 256

/-- The r16 register-pair word for the BC/DE/HL selectors. -/
def Cpu.pairWord (cpu : Cpu) (sel : Nat) : Nat :=
  match sel with
  | 0 => (cpu.registers.b <<< 8) ||| cpu.registers.c
  | 1 => (cpu.registers.d <<< 8) ||| cpu.registers.e
  | _ => (cpu.registers.h <<< 8) ||| cpu.registers.l

/-- Store a word into the r16 register pair for the BC/DE/HL selectors
(ld_r16_imm16 in src/cpu.rs: hi gets the high byte, lo the low byte). -/
def Cpu.setPair (cpu : Cpu) (sel : Nat) (imm16 : Nat) : Cpu :=
  let hi := (imm16 >>> 8) % 256
  let lo := imm16 % 256
  match sel with
  | 0 => { cpu with registers := { cpu.registers with b := hi, c := lo } }
  | 1 => { cpu with registers := { cpu.registers with d := hi, e := lo } }
  | _ => { cpu with registers := { cpu.registers with h := hi, l := lo } }

/-- Apply inc_r16/dec_r16 (src/cpu.rs) to the register pair selected by
0 (BC), 1 (DE), other (HL). -/
def Cpu.bumpPair (cpu : Cpu) (sel : Nat) (inc : Bool) : Cpu :=
  match sel with
  | 0 =>
    let (h, l) :=
      if inc then inc_r16 cpu.registers.b cpu.registers.c
      else dec_r16 cpu.registers.b cpu.registers.c
    { cpu with registers := { cpu.registers with b := h, c := l } }
  | 1 =>
    let (h, l) :=
      if inc then inc_r16 cpu.registers.d cpu.registers.e
      else dec_r16 cpu.registers.d cpu.registers.e
    { cpu with registers := { cpu.registers with d := h, e := l } }
  | _ =>
    let (h, l) :=
      if inc then inc_r16 cpu.registers.h cpu.registers.l
      else dec_r16 cpu.registers.h cpu.registers.l
    { cpu with registers := { cpu.registers with h := h, l := l } }

/-- The CB-prefixed decode of Cpu::step (src/cpu.rs): rotates and
shifts, BIT, RES, SET, dispatched on the second opcode byte. -/
def Cpu.stepCB (cpu : Cpu) (op2 : Nat) : Option (Cpu × Nat) := do
  match (op2 &&& 0b11000000) >>> 6 with
  | 0b00 =>
    let idx := op2 &&& 0b00000111
    let v ← cpu.getR8 idx
    let (v', f') :=
      match (op2 &&& 0b00111000) >>> 3 with
      | 0b000 => rlc_r8 v cpu.registers.flags
      | 0b001 => rrc_r8 v cpu.registers.flags
      | 0b010 => rl_r8 v cpu.registers.flags
      | 0b011 => rr_r8 v cpu.registers.flags
      | 0b100 => sla_r8 v cpu.registers.flags
      | 0b101 => sra_r8 v cpu.registers.flags
      | 0b110 => swap_r8 v cpu.registers.flags
      | _ => srl_r8 v cpu.registers.flags
    let cpu ← (cpu.withFlags f').setR8 idx v'
    return ({ cpu with pc := wadd16 cpu.pc 2 }, 2)
  | 0b01 =>
    let bit_index := (op2 &&& 0b00111000) >>> 3
    let v ← cpu.getR8 (op2 &&& 0b00000111)
    let cpu := cpu.withFlags (bit_b3_r8 bit_index v cpu.registers.flags)
    return ({ cpu with pc := wadd16 cpu.pc 2 }, 2)
  | 0b10 =>
    let bit_index := (op2 &&& 0b00111000) >>> 3
    let idx := op2 &&& 0b00000111
    let v ← cpu.getR8 idx
    let cpu ← cpu.setR8 idx (res_b3_r8 bit_index v)
    return ({ cpu with pc := wadd16 cpu.pc 2 }, 2)
  | _ =>
    let bit_index := (op2 &&& 0b00111000) >>> 3
    let idx := op2 &&& 0b00000111
    let v ← cpu.getR8 idx
    let cpu ← cpu.setR8 idx (set_b3_r8 bit_index v)
    return ({ cpu with pc := wadd16 cpu.pc 2 }, 2)

/-- Block 0 of Cpu::step (opcodes with top bits 00, src/cpu.rs). -/
def Cpu.stepBlock0 (cpu : Cpu) (opcode : Nat) : Option (Cpu × Nat) := do
  if opcode = 0 then
    return ({ cpu with pc := wadd16 cpu.pc 1 }, 1)
  else if opcode = 24 then
    let imm8 ← cpu.mmu.read_byte (wadd16 cpu.pc 1)
    let pc := (((cpu.pc : Int) + i8val imm8).emod 65536).toNat
    return ({ cpu with pc := wadd16 pc 2 }, 3)
  else if opcode &&& 0b00100111 = 32 then
    let condition := cpu.registers.flags.get_condition ((opcode &&& 0b00011000) >>> 3)
    if condition then
      let imm8 ← cpu.mmu.read_byte (wadd16 cpu.pc 1)
      let pc := (((cpu.pc : Int) + i8val imm8).emod 65536).toNat
      return ({ cpu with pc := wadd16 pc 2 }, 3)
    else
      return ({ cpu with pc := wadd16 cpu.pc 2 }, 2)
  else if opcode = 0b00010000 then
    return ({ cpu with pc := wadd16 cpu.pc 2 }, 1)
  else
    match opcode &&& 0b00001111 with
    | 0b0001 => do
      let imm16 ← cpu.mmu.read_word (wadd16 cpu.pc 1)
      let sel := (opcode &&& 0b00110000) >>> 4
      let cpu := if sel = 3 then { cpu with sp := imm16 } else cpu.setPair sel imm16
      return ({ cpu with pc := wadd16 cpu.pc 3 }, 3)
    | 0b0010 => do
      let sel := (opcode &&& 0b00110000) >>> 4
      let dest := cpu.pairWord sel
      let m ← cpu.mmu.write_byte dest cpu.registers.a
      let cpu := { cpu with mmu := m }
      let cpu := if sel = 2 then cpu.bumpPair 2 true
                 else if sel = 3 then cpu.bumpPair 2 false else cpu
      return ({ cpu with pc := wadd16 cpu.pc 1 }, 2)
    | 0b1010 => do
      let sel := (opcode &&& 0b00110000) >>> 4
      let v ← cpu.mmu.read_byte (cpu.pairWord sel)
      let cpu := { cpu with registers := { cpu.registers with a := v } }
      let cpu := if sel = 2 then cpu.bumpPair 2 true
                 else if sel = 3 then cpu.bumpPair 2 false else cpu
      return ({ cpu with pc := wadd16 cpu.pc 1 }, 2)
    | 0b1000 => do
      let imm16 ← cpu.mmu.read_word (wadd16 cpu.pc 1)
      let m ← cpu.mmu.write_word imm16 cpu.sp
      return ({ cpu with mmu := m, pc := wadd16 cpu.pc 3 }, 5)
    | 0b0011 =>
      let sel := (opcode &&& 0b00110000) >>> 4
      let cpu := if sel = 3 then { cpu with sp := wadd16 cpu.sp 1 } else cpu.bumpPair sel true
      return ({ cpu with pc := wadd16 cpu.pc 1 }, 2)
    | 0b1011 =>
      let sel := (opcode &&& 0b00110000) >>> 4
      let cpu := if sel = 3 then { cpu with sp := wsub16 cpu.sp 1 } else cpu.bumpPair sel false
      return ({ cpu with pc := wadd16 cpu.pc 1 }, 2)
    | 0b1001 =>
      let sel := (opcode &&& 0b00110000) >>> 4
      let operand := if sel = 3 then cpu.sp else cpu.pairWord sel
      let hl := (cpu.registers.h <<< 8) ||| cpu.registers.l
      let (result, f') := add_hl_r16 hl operand cpu.registers.flags
      let cpu := cpu.withFlags f'
      let cpu := { cpu with registers :=
        { cpu.registers with h := (result >>> 8) % 256, l := result % 256 } }
      return ({ cpu with pc := wadd16 cpu.pc 1 }, 2)
    | 0b0100 | 0b1100 => do
      let idx := (opcode &&& 0b00111000) >>> 3
      let v ← cpu.getR8 idx
      let (v', f') := inc_r8 v cpu.registers.flags
      let cpu ← (cpu.withFlags f').setR8 idx v'
      return ({ cpu with pc := wadd16 cpu.pc 1 }, 1)
    | 0b0101 | 0b1101 => do
      let idx := (opcode &&& 0b00111000) >>> 3
      let v ← cpu.getR8 idx
      let (v', f') := dec_r8 v cpu.registers.flags
      let cpu ← (cpu.withFlags f').setR8 idx v'
      return ({ cpu with pc := wadd16 cpu.pc 1 }, 1)
    | 0b1110 | 0b0110 => do
      let imm8 ← cpu.mmu.read_byte (wadd16 cpu.pc 1)
      let idx := (opcode &&& 0b00111000) >>> 3
      let cpu ← cpu.setR8 idx imm8
      return ({ cpu with pc := wadd16 cpu.pc 2 }, 2)
    | 0b0111 | 0b1111 =>
      match (opcode &&& 0b00111000) >>> 3 with
      | 0b000 =>
        let (v', f') := rlc_r8 cpu.registers.a cpu.registers.flags
        let cpu := cpu.withFlags { f' with zero := false }
        let cpu := { cpu with registers := { cpu.registers with a := v' } }
        return ({ cpu with pc := wadd16 cpu.pc 1 }, 1)
      | 0b001 =>
        let (v', f') := rrc_r8 cpu.registers.a cpu.registers.flags
        let cpu := cpu.withFlags { f' with zero := false }
        let cpu := { cpu with registers := { cpu.registers with a := v' } }
        return ({ cpu with pc := wadd16 cpu.pc 1 }, 1)
      | 0b010 =>
        let (v', f') := rl_r8 cpu.registers.a cpu.registers.flags
        let cpu := cpu.withFlags { f' with zero := false }
        let cpu := { cpu with registers := { cpu.registers with a := v' } }
        return ({ cpu with pc := wadd16 cpu.pc 1 }, 1)
      | 0b011 =>
        let (v', f') := rr_r8 cpu.registers.a cpu.registers.flags
        let cpu := cpu.withFlags { f' with zero := false }
        let cpu := { cpu with registers := { cpu.registers with a := v' } }
        return ({ cpu with pc := wadd16 cpu.pc 1 }, 1)
      | 0b100 =>
        let (v', f') := daa cpu.registers.a cpu.registers.flags
        let cpu := (cpu.withFlags f')
        let cpu := { cpu with registers := { cpu.registers with a := v' } }
        return ({ cpu with pc := wadd16 cpu.pc 1 }, 1)
      | 0b101 =>
        let (v', f') := cpl cpu.registers.a cpu.registers.flags
        let cpu := (cpu.withFlags f')
        let cpu := { cpu with registers := { cpu.registers with a := v' } }
        return ({ cpu with pc := wadd16 cpu.pc 1 }, 1)
      | 0b110 =>
        let cpu := cpu.withFlags
          { cpu.registers.flags with carry := true, subtract := false, half_carry := false }
        return ({ cpu with pc := wadd16 cpu.pc 1 }, 1)
      | _ =>
        let carry := cpu.registers.flags.carry
        let cpu := cpu.withFlags
          { cpu.registers.flags with carry := !carry, subtract := false, half_carry := false }
        return ({ cpu with pc := wadd16 cpu.pc 1 }, 1)
    | _ => none

/-- Block 1 of Cpu::step (ld r8, r8, src/cpu.rs). The source pairs
the operands through R8OrMem: register to register, register to or
from the (HL) byte, and for 0x76-shaped operands (HL) to (HL). -/
def Cpu.stepBlock1 (cpu : Cpu) (opcode : Nat) : Option (Cpu × Nat) := do
  let dest := (opcode &&& 0b00111000) >>> 3
  let src := opcode &&& 0b00000111
  let v ← cpu.getR8 src
  let cpu ← cpu.setR8 dest v
  return ({ cpu with pc := wadd16 cpu.pc 1 }, 1)

/-- Block 2 of Cpu::step (8-bit arithmetic on A, src/cpu.rs). -/
def Cpu.stepBlock2 (cpu : Cpu) (opcode : Nat) : Option (Cpu × Nat) := do
  let v ← cpu.getR8 (opcode &&& 0b00000111)
  let a := cpu.registers.a
  let f := cpu.registers.flags
  match (opcode &&& 0b00111000) >>> 3 with
  | 0b000 =>
    let (a', f') := add_a_r8 a v f
    let cpu := (cpu.withFlags f')
    let cpu := { cpu with registers := { cpu.registers with a := a' } }
    return ({ cpu with pc := wadd16 cpu.pc 1 }, 1)
  | 0b001 =>
    let (a', f') := adc_a_r8 a v f
    let cpu := (cpu.withFlags f')
    let cpu := { cpu with registers := { cpu.registers with a := a' } }
    return ({ cpu with pc := wadd16 cpu.pc 1 }, 1)
  | 0b010 =>
    let (a', f') := sub_a_r8 a v f
    let cpu := (cpu.withFlags f')
    let cpu := { cpu with registers := { cpu.registers with a := a' } }
    return ({ cpu with pc := wadd16 cpu.pc 1 }, 1)
  | 0b011 =>
    let (a', f') := sbc_a_r8 a v f
    let cpu := (cpu.withFlags f')
    let cpu := { cpu with registers := { cpu.registers with a := a' } }
    return ({ cpu with pc := wadd16 cpu.pc 1 }, 1)
  | 0b100 =>
    let (a', f') := and_a_r8 a v f
    let cpu := (cpu.withFlags f')
    let cpu := { cpu with registers := { cpu.registers with a := a' } }
    return ({ cpu with pc := wadd16 cpu.pc 1 }, 1)
  | 0b101 =>
    let (a', f') := xor_a_r8 a v f
    let cpu := (cpu.withFlags f')
    let cpu := { cpu with registers := { cpu.registers with a := a' } }
    return ({ cpu with pc := wadd16 cpu.pc 1 }, 1)
  | 0b110 =>
    let (a', f') := or_a_r8 a v f
    let cpu := (cpu.withFlags f')
    let cpu := { cpu with registers := { cpu.registers with a := a' } }
    return ({ cpu with pc := wadd16 cpu.pc 1 }, 1)
  | _ =>
    let cpu := cpu.withFlags (cp_a_r8 a v f)
    return ({ cpu with pc := wadd16 cpu.pc 1 }, 1)

/-- Block 3 of Cpu::step (opcodes with top bits 11, src/cpu.rs). -/
def Cpu.stepBlock3 (cpu : Cpu) (opcode : Nat) : Option (Cpu × Nat) := do
  if opcode &&& 0b00000111 = 0b110 then do
    let imm8 ← cpu.mmu.read_byte (wadd16 cpu.pc 1)
    let a := cpu.registers.a
    let f := cpu.registers.flags
    match (opcode &&& 0b00111000) >>> 3 with
    | 0b000 =>
      let (a', f') := add_a_imm8 a imm8 f
      let cpu := (cpu.withFlags f')
      let cpu := { cpu with registers := { cpu.registers with a := a' } }
      return ({ cpu with pc := wadd16 cpu.pc 2 }, 2)
    | 0b001 =>
      let (a', f') := adc_a_imm8 a imm8 f
      let cpu := (cpu.withFlags f')
      let cpu := { cpu with registers := { cpu.registers with a := a' } }
      return ({ cpu with pc := wadd16 cpu.pc 2 }, 2)
    | 0b010 =>
      let (a', f') := sub_a_imm8 a imm8 f
      let cpu := (cpu.withFlags f')
      let cpu := { cpu with registers := { cpu.registers with a := a' } }
      return ({ cpu with pc := wadd16 cpu.pc 2 }, 2)
    | 0b011 =>
      let (a', f') := sbc_a_imm8 a imm8 f
      let cpu := (cpu.withFlags f')
      let cpu := { cpu with registers := { cpu.registers with a := a' } }
      return ({ cpu with pc := wadd16 cpu.pc 2 }, 2)
    | 0b100 =>
      let (a', f') := and_a_imm8 a imm8 f
      let cpu := (cpu.withFlags f')
      let cpu := { cpu with registers := { cpu.registers with a := a' } }
      return ({ cpu with pc := wadd16 cpu.pc 2 }, 2)
    | 0b101 =>
      let (a', f') := xor_a_imm8 a imm8 f
      let cpu := (cpu.withFlags f')
      let cpu := { cpu with registers := { cpu.registers with a := a' } }
      return ({ cpu with pc := wadd16 cpu.pc 2 }, 2)
    | 0b110 =>
      let (a', f') := or_a_imm8 a imm8 f
      let cpu := (cpu.withFlags f')
      let cpu := { cpu with registers := { cpu.registers with a := a' } }
      return ({ cpu with pc := wadd16 cpu.pc 2 }, 2)
    | _ =>
      let cpu := cpu.withFlags (cp_a_imm8 a imm8 f)
      return ({ cpu with pc := wadd16 cpu.pc 2 }, 2)
  else if opcode &&& 0b00000111 = 0b111 then do
    let n := (opcode &&& 0b00111000) >>> 3
    let m ← cpu.mmu.write_word (wsub16 cpu.sp 2) (wadd16 cpu.pc 1)
    return ({ cpu with mmu := m, sp := wsub16 cpu.sp 2, pc := n * 8 }, 4)
  else
    match opcode with
    | 0b11100010 => do
      let m ← cpu.mmu.write_byte (0xFF00 + cpu.registers.c) cpu.registers.a
      return ({ cpu with mmu := m, pc := wadd16 cpu.pc 1 }, 2)
    | 0b11110010 => do
      let v ← cpu.mmu.read_byte (0xFF00 + cpu.registers.c)
      let cpu := { cpu with registers := { cpu.registers with a := v } }
      return ({ cpu with pc := wadd16 cpu.pc 1 }, 2)
    | 0b11100000 => do
      let imm8 ← cpu.mmu.read_byte (wadd16 cpu.pc 1)
      let m ← cpu.mmu.write_byte (0xFF00 + imm8) cpu.registers.a
      return ({ cpu with mmu := m, pc := wadd16 cpu.pc 2 }, 3)
    | 0b11110000 => do
      let imm8 ← cpu.mmu.read_byte (wadd16 cpu.pc 1)
      if imm8 = 0x00 then
        let cpu := { cpu with registers := { cpu.registers with a := 0xEF } }
        return ({ cpu with pc := wadd16 cpu.pc 2 }, 3)
      else
        let v ← cpu.mmu.read_byte (0xFF00 + imm8)
        let cpu := { cpu with registers := { cpu.registers with a := v } }
        return ({ cpu with pc := wadd16 cpu.pc 2 }, 3)
    | 0b11101010 => do
      let imm16 ← cpu.mmu.read_word (wadd16 cpu.pc 1)
      let m ← cpu.mmu.write_byte imm16 cpu.registers.a
      return ({ cpu with mmu := m, pc := wadd16 cpu.pc 3 }, 4)
    | 0b11001010 =>
      if cpu.registers.flags.zero then do
        let pc ← cpu.mmu.read_word (wadd16 cpu.pc 1)
        return ({ cpu with pc := pc }, 4)
      else return ({ cpu with pc := wadd16 cpu.pc 3 }, 3)
    | 0b11000010 =>
      if !cpu.registers.flags.zero then do
        let pc ← cpu.mmu.read_word (wadd16 cpu.pc 1)
        return ({ cpu with pc := pc }, 4)
      else return ({ cpu with pc := wadd16 cpu.pc 3 }, 3)
    | 0b11011010 =>
      if cpu.registers.flags.carry then do
        let pc ← cpu.mmu.read_word (wadd16 cpu.pc 1)
        return ({ cpu with pc := pc }, 4)
      else return ({ cpu with pc := wadd16 cpu.pc 3 }, 3)
    | 0b11010010 =>
      if !cpu.registers.flags.carry then do
        let pc ← cpu.mmu.read_word (wadd16 cpu.pc 1)
        return ({ cpu with pc := pc }, 4)
      else return ({ cpu with pc := wadd16 cpu.pc 3 }, 3)
    | 0b11000100 =>
      if !cpu.registers.flags.zero then do
        let m ← cpu.mmu.write_word (wsub16 cpu.sp 2) (wadd16 cpu.pc 3)
        let cpu := { cpu with mmu := m, sp := wsub16 cpu.sp 2 }
        let pc ← cpu.mmu.read_word (wadd16 cpu.pc 1)
        return ({ cpu with pc := pc }, 6)
      else return ({ cpu with pc := wadd16 cpu.pc 3 }, 3)
    | 0b11001100 =>
      if cpu.registers.flags.zero then do
        let m ← cpu.mmu.write_word (wsub16 cpu.sp 2) (wadd16 cpu.pc 3)
        let cpu := { cpu with mmu := m, sp := wsub16 cpu.sp 2 }
        let pc ← cpu.mmu.read_word (wadd16 cpu.pc 1)
        return ({ cpu with pc := pc }, 6)
      else return ({ cpu with pc := wadd16 cpu.pc 3 }, 3)
    | 0b11011100 =>
      if cpu.registers.flags.carry then do
        let m ← cpu.mmu.write_word (wsub16 cpu.sp 2) (wadd16 cpu.pc 3)
        let cpu := { cpu with mmu := m, sp := wsub16 cpu.sp 2 }
        let pc ← cpu.mmu.read_word (wadd16 cpu.pc 1)
        return ({ cpu with pc := pc }, 6)
      else return ({ cpu with pc := wadd16 cpu.pc 3 }, 3)
    | 0b11010100 =>
      if !cpu.registers.flags.carry then do
        let m ← cpu.mmu.write_word (wsub16 cpu.sp 2) (wadd16 cpu.pc 3)
        let cpu := { cpu with mmu := m, sp := wsub16 cpu.sp 2 }
        let pc ← cpu.mmu.read_word (wadd16 cpu.pc 1)
        return ({ cpu with pc := pc }, 6)
      else return ({ cpu with pc := wadd16 cpu.pc 3 }, 3)
    | 0b11111010 => do
      let imm16 ← cpu.mmu.read_word (wadd16 cpu.pc 1)
      let v ← cpu.mmu.read_byte imm16
      let cpu := { cpu with registers := { cpu.registers with a := v } }
      return ({ cpu with pc := wadd16 cpu.pc 3 }, 4)
    | 0b11111001 =>
      let sp := cpu.registers.l ||| (cpu.registers.h <<< 8)
      return ({ cpu with sp := sp, pc := wadd16 cpu.pc 1 }, 2)
    | 0b11111000 => do
      let imm8 ← cpu.mmu.read_byte (wadd16 cpu.pc 1)
      let (hl, f') := add_hl_sp_imm8 cpu.sp (i8val imm8) cpu.registers.flags
      let cpu := cpu.withFlags f'
      let cpu := { cpu with registers :=
        { cpu.registers with h := (hl >>> 8) % 256, l := hl % 256 } }
      return ({ cpu with pc := wadd16 cpu.pc 2 }, 3)
    | 0b11001101 => do
      let m ← cpu.mmu.write_word (wsub16 cpu.sp 2) (wadd16 cpu.pc 3)
      let cpu := { cpu with mmu := m, sp := wsub16 cpu.sp 2 }
      let pc ← cpu.mmu.read_word (wadd16 cpu.pc 1)
      return ({ cpu with pc := pc }, 6)
    | 0b11001001 => do
      let pc ← cpu.mmu.read_word cpu.sp
      return ({ cpu with pc := pc, sp := wadd16 cpu.sp 2 }, 4)
    | 0b11011001 => do
      let pc ← cpu.mmu.read_word cpu.sp
      return ({ cpu with pc := pc, sp := wadd16 cpu.sp 2, ime := true }, 4)
    | 0b11000011 => do
      let pc ← cpu.mmu.read_word (wadd16 cpu.pc 1)
      return ({ cpu with pc := pc }, 4)
    | 0b11101000 => do
      let imm8 ← cpu.mmu.read_byte (wadd16 cpu.pc 1)
      let (sp', f') := add_sp_imm8 cpu.sp (i8val imm8) cpu.registers.flags
      let cpu := cpu.withFlags f'
      return ({ cpu with sp := sp', pc := wadd16 cpu.pc 2 }, 4)
    | 0b11101001 =>
      return ({ cpu with pc := (cpu.registers.h <<< 8) ||| cpu.registers.l }, 1)
    | 0b11000000 =>
      if !cpu.registers.flags.zero then do
        let pc ← cpu.mmu.read_word cpu.sp
        return ({ cpu with pc := pc, sp := wadd16 cpu.sp 2 }, 5)
      else return ({ cpu with pc := wadd16 cpu.pc 1 }, 2)
    | 0b11001000 =>
      if cpu.registers.flags.zero then do
        let pc ← cpu.mmu.read_word cpu.sp
        return ({ cpu with pc := pc, sp := wadd16 cpu.sp 2 }, 5)
      else return ({ cpu with pc := wadd16 cpu.pc 1 }, 2)
    | 0b11010000 =>
      if !cpu.registers.flags.carry then do
        let pc ← cpu.mmu.read_word cpu.sp
        return ({ cpu with pc := pc, sp := wadd16 cpu.sp 2 }, 5)
      else return ({ cpu with pc := wadd16 cpu.pc 1 }, 2)
    | 0b11011000 =>
      if cpu.registers.flags.carry then do
        let pc ← cpu.mmu.read_word cpu.sp
        return ({ cpu with pc := pc, sp := wadd16 cpu.sp 2 }, 5)
      else return ({ cpu with pc := wadd16 cpu.pc 1 }, 2)
    | 0b11110011 =>
      return ({ cpu with ime := false, pc := wadd16 cpu.pc 1 }, 1)
    | 0b11111011 =>
      return ({ cpu with ime := true, pc := wadd16 cpu.pc 1 }, 1)
    | _ =>
      match opcode &&& 0b00001111 with
      | 0b0001 => do
        let sel := (opcode &&& 0b00110000) >>> 4
        let lo ← cpu.mmu.read_byte cpu.sp
        let hi ← cpu.mmu.read_byte (wadd16 cpu.sp 1)
        let cpu :=
          if sel = 3 then
            let cpu := { cpu with registers := { cpu.registers with a := hi } }
            cpu.withFlags (Flags.set_from_u8 lo)
          else cpu.setPair sel ((hi <<< 8) ||| lo)
        return ({ cpu with sp := wadd16 cpu.sp 2, pc := wadd16 cpu.pc 1 }, 4)
      | 0b0101 => do
        let sel := (opcode &&& 0b00110000) >>> 4
        let word :=
          if sel = 3 then (cpu.registers.a <<< 8) ||| cpu.registers.flags.to_u8
          else cpu.pairWord sel
        let m ← cpu.mmu.write_word (wsub16 cpu.sp 2) word
        return ({ cpu with mmu := m, sp := wsub16 cpu.sp 2, pc := wadd16 cpu.pc 1 }, 3)
      | _ => none

/-- The opcode dispatch of Cpu::step (src/cpu.rs): the CB prefix
fetches a second byte; otherwise the top two opcode bits select the
block. -/
def Cpu.stepOp (cpu : Cpu) (opcode : Nat) : Option (Cpu × Nat) :=
  if opcode = 0xCB then
    (cpu.mmu.read_byte (wadd16 cpu.pc 1)).bind fun op2 => cpu.stepCB op2
  else
    match (opcode &&& 0b11000000) >>> 6 with
    | 0b00 => cpu.stepBlock0 opcode
    | 0b01 => cpu.stepBlock1 opcode
    | 0b10 => cpu.stepBlock2 opcode
    | _ => cpu.stepBlock3 opcode

/-- Cpu::step (src/cpu.rs): fetch the opcode at PC, execute one
instruction, and return the new state with its machine-cycle count.
`none` is a Rust panic: a failing MMU access, or the `panic!` arms
for undecodable opcodes. The decode structure (CB prefix, then the
two top bits selecting blocks 0..3, then the if/match chains inside
each block) mirrors the source, one definition per source block; the
per-instruction bodies call the standalone helper functions above
exactly where the source does. -/
def Cpu.step (cpu : Cpu) : Option (Cpu × Nat) :=
  (cpu.mmu.read_byte cpu.pc).bind cpu.stepOp

/-- The interrupt-dispatch block at the top of Cpu::game_loop's inner
loop (src/cpu.rs): run after every `step`. With IME set, a pending and
enabled VBlank interrupt (bit 0 of IE and IF) is serviced — clear IME,
clear the IF bit, push PC, jump to 0x40 — else a pending and enabled
LCD STAT interrupt (bit 1) is serviced the same way to 0x48; any other
interrupt is left unhandled (the source's TODO arm). -/
def Cpu.serviceInterrupts (cpu : Cpu) : Option Cpu :=
  if cpu.ime then do
    let ie ← cpu.mmu.read_byte 0xFFFF
    let iflag ← cpu.mmu.read_byte 0xFF0F
    if ie &&& iflag &&& 0b00000001 ≠ 0 then
      let m ← cpu.mmu.write_byte 0xFF0F (iflag &&& (0xFF ^^^ 0b00000001))
      let m ← m.write_word (wsub16 cpu.sp 2) cpu.pc
      return { cpu with ime := false, mmu := m, sp := wsub16 cpu.sp 2, pc := 0x40 }
    else if ie &&& iflag &&& 0b00000010 ≠ 0 then
      let m ← cpu.mmu.write_byte 0xFF0F (iflag &&& (0xFF ^^^ 0b00000010))
      let m ← m.write_word (wsub16 cpu.sp 2) cpu.pc
      return { cpu with ime := false, mmu := m, sp := wsub16 cpu.sp 2, pc := 0x48 }
    else
      return cpu
  else
    return cpu

/-! ## The PPU (src/ppu.rs)

The renderer writes RGBA pixels into byte buffers. A pixel is modelled
as a record of its four bytes; the scanline's byte buffer stays a
`Nat → Nat` function. The per-pixel loops of draw_window and of the
compositing loop in draw_scanline touch each pixel independently, so
they are modelled pointwise; the sprite pass keeps its imperative loop
(sprite overlap, the 10-sprite budget and the duplicate-x filter are
order-dependent). -/

/-- Four bytes of one RGBA pixel. -/
structure Pix where
  r : Nat
  g : Nat
  b : Nat
  a : Nat
deriving DecidableEq

/-- The all-zero pixel of a freshly allocated layer buffer. -/
def zeroPix : Pix := ⟨0, 0, 0, 0⟩

/-- One shade of the fixed 4-color palette as written by the renderer
(src/ppu.rs, the `match ... Palette::White => &[232, 252, 204, 255]`
tables): selector 0..3 to RGBA bytes. -/
def paletteColor (sel : Nat) : Pix :=
  match sel &&& 0b11 with
  | 0 => ⟨232, 252, 204, 255⟩
  | 1 => ⟨172, 212, 144, 255⟩
  | 2 => ⟨84, 140, 112, 255⟩
  | _ => ⟨20, 44, 56, 255⟩

/-- Look up color index `z` through a palette byte, as
`Palette::from_u8(byte)[z]` rendered to RGBA (src/ppu.rs). -/
def paletteLookup (byte z : Nat) : Pix :=
  paletteColor ((byte >>> (z * 2)) &&& 0b11)

/-- Mmu::get_bg_enable (src/mmu.rs): LCDC bit 0. -/
def Mmu.get_bg_enable (m : Mmu) : Bool := m.io 0x40 &&& 0b00000001 == 0b00000001

/-- Mmu::get_window_enable (src/mmu.rs): LCDC bit 5. -/
def Mmu.get_window_enable (m : Mmu) : Bool := m.io 0x40 &&& 0b00100000 == 0b00100000

/-- Mmu::get_obj_enable (src/mmu.rs): LCDC bit 1. -/
def Mmu.get_obj_enable (m : Mmu) : Bool := m.io 0x40 &&& 0b00000010 == 0b00000010

/-- Mmu::get_bg_map_mode (src/mmu.rs): LCDC bit 3. -/
def Mmu.get_bg_map_mode (m : Mmu) : Bool := m.io 0x40 &&& 0b00001000 == 0b00001000

/-- Mmu::get_window_map_mode (src/mmu.rs): LCDC bit 6. -/
def Mmu.get_window_map_mode (m : Mmu) : Bool := m.io 0x40 &&& 0b01000000 == 0b01000000

/-- Mmu::get_tile_mode (src/mmu.rs): LCDC bit 4. -/
def Mmu.get_tile_mode (m : Mmu) : Bool := m.io 0x40 &&& 0b00010000 == 0b00010000

/-- Mmu::get_obj_size (src/mmu.rs): LCDC bit 2. -/
def Mmu.get_obj_size (m : Mmu) : Bool := m.io 0x40 &&& 0b00000100 == 0b00000100

/-- Mmu::get_bg_tile_data (src/mmu.rs): the 0x1000-byte tile-data window
of VRAM, from 0x0000 when tile mode is set, else from 0x0800. -/
def Mmu.get_bg_tile_data (m : Mmu) : Nat → Nat :=
  if m.get_tile_mode then fun i => m.vram i else fun i => m.vram (0x800 + i)

/-- Mmu::get_bg_tile_map (src/mmu.rs): the 0x400-byte BG tile map, at
VRAM 0x1C00 when the map mode bit is set, else 0x1800. -/
def Mmu.get_bg_tile_map (m : Mmu) : Nat → Nat :=
  if m.get_bg_map_mode then fun i => m.vram (0x1C00 + i) else fun i => m.vram (0x1800 + i)

/-- Mmu::get_window_tile_map (src/mmu.rs). -/
def Mmu.get_window_tile_map (m : Mmu) : Nat → Nat :=
  if m.get_window_map_mode then fun i => m.vram (0x1C00 + i) else fun i => m.vram (0x1800 + i)

/-- Mmu::get_window_pos (src/mmu.rs): (WY, WX) = (io[4A], io[4B]). -/
def Mmu.get_window_pos (m : Mmu) : Nat × Nat := (m.io 0x4A, m.io 0x4B)

/-- Mmu::get_oam_tile_data (src/mmu.rs): VRAM 0x0000..0x1000. -/
def Mmu.get_oam_tile_data (m : Mmu) : Nat → Nat := fun i => m.vram i

/-- Mmu::get_bg_palette's palette byte (src/mmu.rs reads io[47]). -/
def Mmu.bg_palette_byte (m : Mmu) : Nat := m.io 0x47

/-- Mmu::get_obj_palette's palette byte (src/mmu.rs reads
io[48 + (palette & 1)]). -/
def Mmu.obj_palette_byte (m : Mmu) (palette : Nat) : Nat :=
  m.io (0x48 + (palette &&& 0x1))

/-- Mmu::get_window_counter (src/mmu.rs). -/
def Mmu.get_window_counter (m : Mmu) : Nat := m.window_counter

/-- One decoded OAM entry (src/ppu.rs `struct ObjectAttribute`). -/
structure ObjectAttribute where
  y : Int
  x : Int
  tile : Nat
  priority : Bool
  y_flip : Bool
  x_flip : Bool
  palette : Nat

/-- ObjectAttribute::from_bytes (src/ppu.rs). -/
def ObjectAttribute.from_bytes (b0 b1 b2 b3 : Nat) : ObjectAttribute where
  y := (b0 : Int) - 16
  x := (b1 : Int) - 8
  tile := b2
  priority := b3 >>> 7 == 1
  y_flip := (b3 >>> 6) &&& 0b1 == 1
  x_flip := (b3 >>> 5) &&& 0b1 == 1
  palette := if (b3 >>> 4) &&& 0b1 == 1 then 1 else 0

/-- The bit-reversal loop of draw_sprites' x-flip arm (src/ppu.rs):
`tile[0] |= (t >> i & 1) << (7 - i)` for i in 0..8. -/
def bitrev8 (v : Nat) : Nat :=
  (List.range 8).foldl (fun acc i => acc ||| (((v >>> i) &&& 0b1) <<< (7 - i))) 0

/-- The inner 8-pixel write loop of draw_sprites (src/ppu.rs): for x in
0..8, skip offscreen columns, and for a non-zero 2-bit color write the
object-palette color, then mark alpha 128 when the sprite has the
priority attribute. -/
def spriteRow (m : Mmu) (s : ObjectAttribute) (t0 t1 : Nat) (out : Nat → Pix) : Nat → Pix :=
  (List.range 8).foldl
    (fun (out : Nat → Pix) (x : Nat) =>
      let xi : Int := x
      if s.x + xi ≥ 160 ∨ s.x + xi < 0 then out
      else
        let color := (((t1 >>> (7 - x)) &&& 0b1) <<< 1) ||| ((t0 >>> (7 - x)) &&& 0b1)
        if color ≠ 0 then
          let p := paletteLookup (m.obj_palette_byte s.palette) color
          let p := if s.priority then { p with a := 128 } else p
          fun j => if j = (s.x + xi).toNat then p else out j
        else out)
    out

/-- The 40-entry OAM loop of draw_sprites (src/ppu.rs), processing
sprite index 40 - fuel. Carries the output layer, the running
`tile_count` and the `x_values` duplicates list; `tile_count` also
counts offscreen-x and duplicate-x sprites, but only a drawn sprite
checks the 10-sprite break. -/
def draw_sprites_loop (m : Mmu) (line offset : Int) :
    Nat → (Nat → Pix) → Nat → List Int → (Nat → Pix)
  | 0, out, _, _ => out
  | n + 1, out, tile_count, x_values =>
    let i := 40 - (n + 1)
    let s := ObjectAttribute.from_bytes (m.oam (4 * i)) (m.oam (4 * i + 1))
      (m.oam (4 * i + 2)) (m.oam (4 * i + 3))
    if s.y ≥ 144 ∨ s.y = -16 then
      draw_sprites_loop m line offset n out tile_count x_values
    else if line ≥ s.y + offset ∨ line < s.y then
      draw_sprites_loop m line offset n out tile_count x_values
    else if s.x ≥ 160 ∨ s.x = -8 then
      draw_sprites_loop m line offset n out (tile_count + 1) x_values
    else if x_values.contains s.x then
      draw_sprites_loop m line offset n out (tile_count + 1) x_values
    else
      let tile_line := if s.y_flip then (offset - (line - s.y) - 1).emod offset else line - s.y
      let tile_start :=
        (if offset = 8 then s.tile else s.tile &&& 0xFE) * 16 + tile_line.toNat * 2
      let tiles := m.get_oam_tile_data
      let t0 := tiles tile_start
      let t1 := tiles (tile_start + 1)
      let t0 := if s.x_flip then bitrev8 t0 else t0
      let t1 := if s.x_flip then bitrev8 t1 else t1
      let out := spriteRow m s t0 t1 out
      let tile_count := tile_count + 1
      if tile_count ≥ 10 then out
      else draw_sprites_loop m line offset n out tile_count (x_values ++ [s.x])

/-- draw_sprites (src/ppu.rs): the sprite layer for one scanline, as the
contents of the local 160-pixel buffer after the OAM loop. -/
def draw_sprites (m : Mmu) (line : Nat) : Nat → Pix :=
  let offset : Int := if m.get_obj_size then 16 else 8
  draw_sprites_loop m (line : Int) offset 40 (fun _ => zeroPix) 0 []

/-- draw_window (src/ppu.rs), pointwise in the output column. Columns
left of WX-7 are skipped (for WX < 7 the usize subtraction wraps and
every column is skipped); on lines above WY nothing is drawn. The window
row comes from the MMU's window counter, not from the line. The source's
`index - win_x as usize + 7` wraps in usize and, for every column the
guard lets through (index + 7 >= WX), lands on index + 7 - WX, which the
truncated subtraction below reproduces exactly. -/
def draw_window (m : Mmu) (line : Nat) (index : Nat) : Pix :=
  let (win_y, win_x) := m.get_window_pos
  if line < win_y then zeroPix
  else if win_x < 7 ∨ index < win_x - 7 then zeroPix
  else
    let x := index + 7 - win_x
    let y := m.get_window_counter
    let tilemap := m.get_window_tile_map
    let tiles := m.get_bg_tile_data
    let start := (y / 8) * 32 + x / 8
    let start := tilemap start
    let tileOff :=
      if m.get_tile_mode then start * 16
      else ((i8val start) * 16 + 0x800).toNat
    let y := y % 8
    let x := x % 8
    let z := (((tiles (tileOff + y * 2 + 1) >>> (7 - x)) &&& 0b1) <<< 1)
      ||| ((tiles (tileOff + y * 2) >>> (7 - x)) &&& 0b1)
    paletteLookup m.bg_palette_byte z

/-- The background color index of draw_scanline's per-pixel tail
(src/ppu.rs): scroll arithmetic in wrapping u16, tile map and tile data
lookup. `col` is the column 0..159. -/
def bgZ (m : Mmu) (scx scy line col : Nat) : Nat :=
  let real_idx := line * 160 + col
  let a := real_idx % 160 + scx
  let b := ((real_idx / 160 + scy) * 256) % 65536
  let idx := (a + b) % 65536
  let y := idx / 256
  let x := idx % 256
  let tilenum := (y / 8) * 32 + x / 8
  let tile := m.get_bg_tile_map tilenum
  let tiles := m.get_bg_tile_data
  let tileOff :=
    if m.get_tile_mode then tile * 16
    else ((i8val tile) * 16 + 0x800).toNat
  let y := y % 8
  let x := x % 8
  (((tiles (tileOff + y * 2 + 1) >>> (7 - x)) &&& 0b1) <<< 1)
    ||| ((tiles (tileOff + y * 2) >>> (7 - x)) &&& 0b1)

/-- The per-pixel compositing body of draw_scanline's main loop
(src/ppu.rs): sprite layer first (opaque sprite wins outright; a
priority-marked sprite, alpha 128, stays pending), then the
BG-disabled white fill, then the window (where the decision reads the
current pixel's alpha byte), then the background (where a color-0 pixel
under a pending priority sprite only sets alpha to 255). `old` is the
pixel already in the frame buffer. -/
def composite (bgEn : Bool) (sprite win old : Pix) (z bgp : Nat) : Pix :=
  let spriteNZ := sprite.r ≠ 0 ∨ sprite.g ≠ 0 ∨ sprite.b ≠ 0 ∨ sprite.a ≠ 0
  if spriteNZ ∧ sprite.a = 255 then sprite
  else
    let pix := if spriteNZ then sprite else old
    if ¬bgEn then ⟨232, 252, 204, 255⟩
    else
      let winSum := (win.r + win.g + win.b + win.a) % 256
      let winTake :=
        winSum ≠ 0 ∧ (pix.a = 0 ∨ (pix.a = 128 ∧ win.r ≠ 232) ∨ (pix.a ≠ 0 ∧ pix.a ≠ 128))
      if winTake then win
      else if z = 0 ∧ pix.a = 128 then { pix with a := 255 }
      else paletteLookup bgp z

/-- draw_scanline (src/ppu.rs): render scanline `line` into the frame
buffer (bytes `line*640 .. line*640+640`). The sprite and window layers
are freshly computed local buffers (all-zero when the corresponding LCDC
enable bit is clear); each output pixel is composited independently, so
the buffer update is pointwise. -/
def draw_scanline (m : Mmu) (frame : Nat → Nat) (scx scy line : Nat) : Nat → Nat :=
  let sprites : Nat → Pix := if m.get_obj_enable then draw_sprites m line else fun _ => zeroPix
  let window : Nat → Pix := if m.get_window_enable then draw_window m line else fun _ => zeroPix
  fun j =>
    let start := line * 160 * 4
    if start ≤ j ∧ j < start + 640 then
      let col := (j - start) / 4
      let old : Pix :=
        ⟨frame (start + col * 4), frame (start + col * 4 + 1),
          frame (start + col * 4 + 2), frame (start + col * 4 + 3)⟩
      let res := composite m.get_bg_enable (sprites col) (window col) old
        (bgZ m scx scy line col) m.bg_palette_byte
      match (j - start) % 4 with
      | 0 => res.r
      | 1 => res.g
      | 2 => res.b
      | _ => res.a
    else frame j

/-! ## Auxiliary definitions for the claims -/

/-- Run a list of write_byte calls in order (read_byte calls are pure in
this embedding and cannot change state, so a mixed read/write call
sequence mutates exactly as its write subsequence does). -/
def execWrites (m : Mmu) : List (Nat × Nat) → Option Mmu
  | [] => some m
  | (a, v) :: rest => do
    let m' ← m.write_byte a v
    execWrites m' rest

/-- The BCD byte encoding of a decimal value below 100. -/
def bcd (n : Nat) : Nat := 16 * (n / 10) + n % 10

/-- The decimal value of a BCD byte (both nibbles at most 9). -/
def bcdVal (b : Nat) : Nat := 10 * (b >>> 4) + (b &&& 0xF)

/-- One ADD-then-DAA test at BCD operands for values x and y
(flags start N=0, HC=0, C=0): A must hold BCD((x+y) mod 100) and the
carry must be set exactly when x+y reaches 100. -/
def daaCheck (x y : Nat) : Bool :=
  let r1 := add_a_r8 (bcd x) (bcd y) ⟨false, false, false, false⟩
  let r2 := daa r1.1 r1.2
  r2.1 == bcd ((x + y) % 100) && (r2.2.carry == decide (100 ≤ x + y))

/-- A placeholder bootstrap ROM image (the real 256 bootstrap bytes live
in a binary asset outside the sources; no claim depends on them). -/
def bootZero : Nat → Nat := fun _ => 0

/-- A freshly constructed MMU, before any cartridge is loaded. -/
def mmuFresh : Mmu := Mmu.new bootZero

/-- A machine about to observe a pending, enabled Timer interrupt:
IME set, IE = IF = 0x04 (reachable by the guest writing IE and a timer
overflow raising the IF bit). -/
def cpuC1 : Cpu where
  registers := Registers.new
  pc := 0xC123
  sp := 0xD000
  ime := true
  state := .Running
  mmu := { mmuFresh with ie := 0x04, io := upd mmuFresh.io 0x0F 0x04 }

/-- The same machine with a pending, enabled VBlank interrupt instead. -/
def cpuC1v : Cpu where
  registers := Registers.new
  pc := 0xC123
  sp := 0xD000
  ime := true
  state := .Running
  mmu := { mmuFresh with ie := 0x01, io := upd mmuFresh.io 0x0F 0x01 }

/-- A machine about to execute opcode 0x76 at 0xC000 (the byte is placed
by a guest write), with HL pointing into work RAM. -/
def cpuC2 : Cpu where
  registers := { Registers.new with h := 0xC0, l := 0x10 }
  pc := 0xC000
  sp := 0xD000
  ime := false
  state := .Running
  mmu := (mmuFresh.write_byte 0xC000 0x76).getD mmuFresh

/-- A machine about to execute EI (0xFB) at 0xC000 with IME clear while
a VBlank interrupt is already pending and enabled (IF = IE = 0x01). -/
def cpuC3 : Cpu where
  registers := Registers.new
  pc := 0xC000
  sp := 0xD000
  ime := false
  state := .Running
  mmu :=
    { (((mmuFresh.write_byte 0xC000 0xFB).getD mmuFresh).write_byte 0xFF0F 0x01).getD mmuFresh
      with ie := 0x01 }

/-- A machine about to execute PUSH AF; POP AF at 0xC000 with A = 0x42,
all flags clear, and SP = 0xE002 so that the two stack bytes fall into
the echo region (writes ignored, reads return 0xFF). -/
def cpuC5 : Cpu where
  registers := { Registers.new with a := 0x42 }
  pc := 0xC000
  sp := 0xE002
  ime := false
  state := .Running
  mmu := (((mmuFresh.write_byte 0xC000 0xF5).getD mmuFresh).write_byte 0xC001 0xF1).getD mmuFresh

/-- An MMU with the timer enabled on TAC mux 00 (selected counter bit 9)
and the internal counter at 0x0200, so the TAC-selected bit is 1; TIMA
(io[05]) is 0. -/
def mmuC7 : Mmu :=
  { mmuFresh with timer := 0x0200, io := upd mmuFresh.io 0x07 0b100 }

/-- A well-formed loaded MMU: a two-bank cartridge with a matching
header and no external RAM. -/
def mmuC8 : Mmu :=
  { mmuFresh with rom := [fun _ => 0, fun _ => 0], rom_size := 2 }

/-- An MMU with only the BG enable bit of LCDC set (written through the
MMU), all of VRAM zero: every background pixel has color index 0. -/
def mmuC9 : Mmu := (mmuFresh.write_byte 0xFF40 0x01).getD mmuFresh

/-- A frame buffer whose pixel 0 carries the renderer's sprite-priority
alpha marker 128 (as a sprite pass of a previous frame leaves behind
mid-line); all other bytes 0. -/
def frameC9 : Nat → Nat := fun j => if j = 3 then 128 else 0

/-- The all-zero frame buffer. -/
def frameZ : Nat → Nat := fun _ => 0

/-- Addresses whose write_byte arm is a plain byte store into backing
memory that read_byte returns directly: VRAM, WRAM, OAM, IO except the
joypad latch (FF00), the DMA trigger (FF46) and the bootstrap unmap flag
(FF50, which changes the 0x0000..0x00FF read dispatch), HRAM, and IE.
The DIV write FF04 qualifies: it stores the byte (and zeroes the
timer). -/
def PlainStore (a : Nat) : Prop :=
  (0x8000 ≤ a ∧ a ≤ 0x9FFF) ∨ (0xC000 ≤ a ∧ a ≤ 0xDFFF) ∨ (0xFE00 ≤ a ∧ a ≤ 0xFE9F) ∨
    (0xFF00 < a ∧ a ≤ 0xFF7F ∧ a ≠ 0xFF46 ∧ a ≠ 0xFF50) ∨ (0xFF80 ≤ a ∧ a ≤ 0xFFFF)

/-- Well-formedness of a loaded MMU: the ROM bank list matches the
declared size (at least two banks), the external-RAM bank list matches
its declared size, RAM is only enabled when present, and a declared RAM
size above 1 means at least 4 banks (the sizes load_game produces are
0, 1, 4, 8, 16). -/
def Mmu.Wf (m : Mmu) : Prop :=
  m.rom.length = m.rom_size ∧ 2 ≤ m.rom_size ∧
    m.eram.length = m.ram_size ∧ (m.ram_enable = true → 0 < m.ram_size) ∧
    (1 < m.ram_size → 4 ≤ m.ram_size)

/-! ## Dispatch lemmas: one per address-range arm of read_byte and
write_byte. Each is proved by peeling the source's if-chain. -/

/-- Peel one false guard of an address-dispatch if-chain (if_neg with the
branches implicit, so a chain of these rewrites stays compact). -/
theorem ifn {c : Prop} [Decidable c] (h : ¬c) {α : Sort _} {t e : α} :
    (if c then t else e) = e := if_neg h

theorem read_byte_low (m : Mmu) (a : Nat) (h2 : a ≤ 0x00FF) :
    m.read_byte a =
      (if m.io 0x50 = 0 then some (m.bootstrap a)
       else if m.rom_mode = 0 then (m.rom.get? 0).map fun b => b a
       else if m.rom_size = 0 then none
       else (m.rom.get? ((m.rom_bank &&& 0b01100000) % m.rom_size)).map fun b => b a) := by
  unfold Mmu.read_byte
  rw [if_pos (by omega)]

theorem read_byte_rom0 (m : Mmu) (a : Nat) (h1 : 0x0100 ≤ a) (h2 : a ≤ 0x3FFF) :
    m.read_byte a =
      (if m.rom_mode = 0 then (m.rom.get? 0).map fun b => b a
       else if m.rom_size = 0 then none
       else (m.rom.get? ((m.rom_bank &&& 0b01100000) % m.rom_size)).map fun b => b a) := by
  unfold Mmu.read_byte
  rw [ifn (by omega), if_pos (by omega)]

theorem read_byte_romN (m : Mmu) (a : Nat) (h1 : 0x4000 ≤ a) (h2 : a ≤ 0x7FFF) :
    m.read_byte a =
      (if m.rom_size < 2 then some 0xFF
       else
        (m.rom.get?
          (if m.rom_bank ≤ 1 then 1
           else if 2 ≤ m.rom_bank ∧ m.rom_bank < 96 ∧ m.rom_bank < m.rom_size then m.rom_bank
           else if m.rom_bank &&& 0b00011111 = 0 then 1
           else m.rom_bank % m.rom_size)).map fun b => b (a - 0x4000)) := by
  unfold Mmu.read_byte
  rw [ifn (by omega), ifn (by omega), if_pos (by omega)]

theorem read_byte_vram (m : Mmu) (a : Nat) (h1 : 0x8000 ≤ a) (h2 : a ≤ 0x9FFF) :
    m.read_byte a = some (m.vram (a - 0x8000)) := by
  unfold Mmu.read_byte
  rw [ifn (by omega), ifn (by omega), ifn (by omega), if_pos (by omega)]

theorem read_byte_eram (m : Mmu) (a : Nat) (h1 : 0xA000 ≤ a) (h2 : a ≤ 0xBFFF) :
    m.read_byte a =
      (if m.ram_enable ∧ m.ram_size > 0 then
        if m.rom_mode = 1 ∧ m.ram_size > 1 then
          (m.eram.get? ((m.rom_bank &&& 0b01100000) >>> 5)).map fun b => b (a - 0xA000)
        else (m.eram.get? 0).map fun b => b (a - 0xA000)
       else some 0xFF) := by
  unfold Mmu.read_byte
  rw [ifn (by omega), ifn (by omega), ifn (by omega), ifn (by omega),
    if_pos (by omega)]

theorem read_byte_wram1 (m : Mmu) (a : Nat) (h1 : 0xC000 ≤ a) (h2 : a ≤ 0xCFFF) :
    m.read_byte a = some (m.wram1 (a - 0xC000)) := by
  unfold Mmu.read_byte
  rw [ifn (by omega), ifn (by omega), ifn (by omega), ifn (by omega),
    ifn (by omega), if_pos (by omega)]

theorem read_byte_wram2 (m : Mmu) (a : Nat) (h1 : 0xD000 ≤ a) (h2 : a ≤ 0xDFFF) :
    m.read_byte a = some (m.wram2 (a - 0xD000)) := by
  unfold Mmu.read_byte
  rw [ifn (by omega), ifn (by omega), ifn (by omega), ifn (by omega),
    ifn (by omega), ifn (by omega), if_pos (by omega)]

theorem read_byte_echo (m : Mmu) (a : Nat) (h1 : 0xE000 ≤ a) (h2 : a ≤ 0xFDFF) :
    m.read_byte a = some 0xFF := by
  unfold Mmu.read_byte
  rw [ifn (by omega), ifn (by omega), ifn (by omega), ifn (by omega),
    ifn (by omega), ifn (by omega), ifn (by omega), if_pos (by omega)]

theorem read_byte_oam (m : Mmu) (a : Nat) (h1 : 0xFE00 ≤ a) (h2 : a ≤ 0xFE9F) :
    m.read_byte a = some (m.oam (a - 0xFE00)) := by
  unfold Mmu.read_byte
  rw [ifn (by omega), ifn (by omega), ifn (by omega), ifn (by omega),
    ifn (by omega), ifn (by omega), ifn (by omega), ifn (by omega),
    if_pos (by omega)]

theorem read_byte_prohibited (m : Mmu) (a : Nat) (h1 : 0xFEA0 ≤ a) (h2 : a ≤ 0xFEFF) :
    m.read_byte a = some 0xFF := by
  unfold Mmu.read_byte
  rw [ifn (by omega), ifn (by omega), ifn (by omega), ifn (by omega),
    ifn (by omega), ifn (by omega), ifn (by omega), ifn (by omega),
    ifn (by omega), if_pos (by omega)]

theorem read_byte_io (m : Mmu) (a : Nat) (h1 : 0xFF00 ≤ a) (h2 : a ≤ 0xFF7F) :
    m.read_byte a = some (m.io (a - 0xFF00)) := by
  unfold Mmu.read_byte
  rw [ifn (by omega), ifn (by omega), ifn (by omega), ifn (by omega),
    ifn (by omega), ifn (by omega), ifn (by omega), ifn (by omega),
    ifn (by omega), ifn (by omega), if_pos (by omega)]

theorem read_byte_hram (m : Mmu) (a : Nat) (h1 : 0xFF80 ≤ a) (h2 : a ≤ 0xFFFE) :
    m.read_byte a = some (m.hram (a - 0xFF80)) := by
  unfold Mmu.read_byte
  rw [ifn (by omega), ifn (by omega), ifn (by omega), ifn (by omega),
    ifn (by omega), ifn (by omega), ifn (by omega), ifn (by omega),
    ifn (by omega), ifn (by omega), ifn (by omega), if_pos (by omega)]

theorem read_byte_ie (m : Mmu) (a : Nat) (h1 : 0xFFFF ≤ a) :
    m.read_byte a = some m.ie := by
  unfold Mmu.read_byte
  rw [ifn (by omega), ifn (by omega), ifn (by omega), ifn (by omega),
    ifn (by omega), ifn (by omega), ifn (by omega), ifn (by omega),
    ifn (by omega), ifn (by omega), ifn (by omega), ifn (by omega)]

theorem write_byte_ff00 (m : Mmu) (a v : Nat) (h : a = 0xFF00) :
    m.write_byte a v = some { m with io := upd m.io 0x00 (joypadLatch m.joypad v) } := by
  unfold Mmu.write_byte
  rw [if_pos h]

theorem write_byte_ff04 (m : Mmu) (a v : Nat) (h : a = 0xFF04) :
    m.write_byte a v = some { m with timer := 0, io := upd m.io 0x04 v } := by
  unfold Mmu.write_byte
  rw [ifn (by omega), if_pos h]

theorem write_byte_ff46 (m : Mmu) (a v : Nat) (h : a = 0xFF46) :
    m.write_byte a v = m.dmaCopy (v <<< 8) 0xA0 := by
  unfold Mmu.write_byte
  rw [ifn (by omega), ifn (by omega), if_pos h]

theorem write_byte_ramg (m : Mmu) (a v : Nat) (h2 : a ≤ 0x1FFF) :
    m.write_byte a v =
      some { m with ram_enable := (v &&& 0x0F == 0x0A) && (m.ram_size != 0) } := by
  unfold Mmu.write_byte
  rw [ifn (by omega), ifn (by omega), ifn (by omega), if_pos (by omega)]

theorem write_byte_bank1 (m : Mmu) (a v : Nat) (h1 : 0x2000 ≤ a) (h2 : a ≤ 0x3FFF) :
    m.write_byte a v =
      some { m with rom_bank := (m.rom_bank &&& 0b11100000) ||| (v &&& 0b00011111) } := by
  unfold Mmu.write_byte
  rw [ifn (by omega), ifn (by omega), ifn (by omega), ifn (by omega),
    if_pos (by omega)]

theorem write_byte_bank2 (m : Mmu) (a v : Nat) (h1 : 0x4000 ≤ a) (h2 : a ≤ 0x5FFF) :
    m.write_byte a v =
      some { m with rom_bank := (m.rom_bank &&& 0b00011111) ||| ((v &&& 0b00000011) <<< 5) } := by
  unfold Mmu.write_byte
  rw [ifn (by omega), ifn (by omega), ifn (by omega), ifn (by omega),
    ifn (by omega), if_pos (by omega)]

theorem write_byte_mode (m : Mmu) (a v : Nat) (h1 : 0x6000 ≤ a) (h2 : a ≤ 0x7FFF) :
    m.write_byte a v = some { m with rom_mode := v &&& 0x01 } := by
  unfold Mmu.write_byte
  rw [ifn (by omega), ifn (by omega), ifn (by omega), ifn (by omega),
    ifn (by omega), ifn (by omega), if_pos (by omega)]

theorem write_byte_vram (m : Mmu) (a v : Nat) (h1 : 0x8000 ≤ a) (h2 : a ≤ 0x9FFF) :
    m.write_byte a v = some { m with vram := upd m.vram (a - 0x8000) v } := by
  unfold Mmu.write_byte
  rw [ifn (by omega), ifn (by omega), ifn (by omega), ifn (by omega),
    ifn (by omega), ifn (by omega), ifn (by omega), if_pos (by omega)]

theorem write_byte_eram (m : Mmu) (a v : Nat) (h1 : 0xA000 ≤ a) (h2 : a ≤ 0xBFFF) :
    m.write_byte a v =
      (if m.ram_enable then
        if m.rom_mode = 1 ∧ m.ram_size > 1 then
          match m.eram.get? ((m.rom_bank &&& 0b01100000) >>> 5) with
          | some b =>
            some { m with
              eram := m.eram.set ((m.rom_bank &&& 0b01100000) >>> 5) (upd b (a - 0xA000) v) }
          | none => none
        else
          match m.eram.get? 0 with
          | some b => some { m with eram := m.eram.set 0 (upd b (a - 0xA000) v) }
          | none => none
       else some m) := by
  unfold Mmu.write_byte
  rw [ifn (by omega), ifn (by omega), ifn (by omega), ifn (by omega),
    ifn (by omega), ifn (by omega), ifn (by omega), ifn (by omega),
    if_pos (by omega)]

theorem write_byte_wram1 (m : Mmu) (a v : Nat) (h1 : 0xC000 ≤ a) (h2 : a ≤ 0xCFFF) :
    m.write_byte a v = some { m with wram1 := upd m.wram1 (a - 0xC000) v } := by
  unfold Mmu.write_byte
  rw [ifn (by omega), ifn (by omega), ifn (by omega), ifn (by omega),
    ifn (by omega), ifn (by omega), ifn (by omega), ifn (by omega),
    ifn (by omega), if_pos (by omega)]

theorem write_byte_wram2 (m : Mmu) (a v : Nat) (h1 : 0xD000 ≤ a) (h2 : a ≤ 0xDFFF) :
    m.write_byte a v = some { m with wram2 := upd m.wram2 (a - 0xD000) v } := by
  unfold Mmu.write_byte
  rw [ifn (by omega), ifn (by omega), ifn (by omega), ifn (by omega),
    ifn (by omega), ifn (by omega), ifn (by omega), ifn (by omega),
    ifn (by omega), ifn (by omega), if_pos (by omega)]

theorem write_byte_echo (m : Mmu) (a v : Nat) (h1 : 0xE000 ≤ a) (h2 : a ≤ 0xFDFF) :
    m.write_byte a v = some m := by
  unfold Mmu.write_byte
  rw [ifn (by omega), ifn (by omega), ifn (by omega), ifn (by omega),
    ifn (by omega), ifn (by omega), ifn (by omega), ifn (by omega),
    ifn (by omega), ifn (by omega), ifn (by omega), if_pos (by omega)]

theorem write_byte_oam (m : Mmu) (a v : Nat) (h1 : 0xFE00 ≤ a) (h2 : a ≤ 0xFE9F) :
    m.write_byte a v = some { m with oam := upd m.oam (a - 0xFE00) v } := by
  unfold Mmu.write_byte
  rw [ifn (by omega), ifn (by omega), ifn (by omega), ifn (by omega),
    ifn (by omega), ifn (by omega), ifn (by omega), ifn (by omega),
    ifn (by omega), ifn (by omega), ifn (by omega), ifn (by omega),
    if_pos (by omega)]

theorem write_byte_prohibited (m : Mmu) (a v : Nat) (h1 : 0xFEA0 ≤ a) (h2 : a ≤ 0xFEFF) :
    m.write_byte a v = some m := by
  unfold Mmu.write_byte
  rw [ifn (by omega), ifn (by omega), ifn (by omega), ifn (by omega),
    ifn (by omega), ifn (by omega), ifn (by omega), ifn (by omega),
    ifn (by omega), ifn (by omega), ifn (by omega), ifn (by omega),
    ifn (by omega), if_pos (by omega)]

theorem write_byte_io (m : Mmu) (a v : Nat) (h1 : 0xFF00 < a) (h2 : a ≤ 0xFF7F)
    (h3 : a ≠ 0xFF04) (h4 : a ≠ 0xFF46) :
    m.write_byte a v = some { m with io := upd m.io (a - 0xFF00) v } := by
  unfold Mmu.write_byte
  rw [ifn (by omega), ifn (by omega), ifn (by omega), ifn (by omega),
    ifn (by omega), ifn (by omega), ifn (by omega), ifn (by omega),
    ifn (by omega), ifn (by omega), ifn (by omega), ifn (by omega),
    ifn (by omega), ifn (by omega), if_pos (by omega)]

theorem write_byte_hram (m : Mmu) (a v : Nat) (h1 : 0xFF80 ≤ a) (h2 : a ≤ 0xFFFE) :
    m.write_byte a v = some { m with hram := upd m.hram (a - 0xFF80) v } := by
  unfold Mmu.write_byte
  rw [ifn (by omega), ifn (by omega), ifn (by omega), ifn (by omega),
    ifn (by omega), ifn (by omega), ifn (by omega), ifn (by omega),
    ifn (by omega), ifn (by omega), ifn (by omega), ifn (by omega),
    ifn (by omega), ifn (by omega), ifn (by omega), if_pos (by omega)]

theorem write_byte_ie (m : Mmu) (a v : Nat) (h1 : 0xFFFF ≤ a) :
    m.write_byte a v = some { m with ie := v } := by
  unfold Mmu.write_byte
  rw [ifn (by omega), ifn (by omega), ifn (by omega), ifn (by omega),
    ifn (by omega), ifn (by omega), ifn (by omega), ifn (by omega),
    ifn (by omega), ifn (by omega), ifn (by omega), ifn (by omega),
    ifn (by omega), ifn (by omega), ifn (by omega), ifn (by omega)]

/-! ## ROM immutability (claim C10) -/

theorem dmaCopy_rom : ∀ (n : Nat) (m : Mmu) (start : Nat) (m' : Mmu),
    m.dmaCopy start n = some m' → m'.rom = m.rom := by
  intro n
  induction n with
  | zero =>
    intro m start m' h
    unfold Mmu.dmaCopy at h
    cases h
    rfl
  | succ n ih =>
    intro m start m' h
    unfold Mmu.dmaCopy at h
    cases hr : m.read_byte (start + (0xA0 - (n + 1))) with
    | none =>
      rw [hr] at h
      simp at h
    | some v =>
      rw [hr] at h
      simp only [Option.bind_eq_bind, Option.some_bind] at h
      exact (ih _ _ _ h).trans rfl

theorem write_byte_rom (m : Mmu) (a v : Nat) (m' : Mmu)
    (h : m.write_byte a v = some m') : m'.rom = m.rom := by
  by_cases c1 : a = 0xFF00
  · rw [write_byte_ff00 m a v c1] at h; cases h; rfl
  by_cases c2 : a = 0xFF04
  · rw [write_byte_ff04 m a v c2] at h; cases h; rfl
  by_cases c3 : a = 0xFF46
  · rw [write_byte_ff46 m a v c3] at h; exact dmaCopy_rom _ _ _ _ h
  by_cases r1 : a ≤ 0x1FFF
  · rw [write_byte_ramg m a v r1] at h; cases h; rfl
  by_cases r2 : a ≤ 0x3FFF
  · rw [write_byte_bank1 m a v (by omega) r2] at h; cases h; rfl
  by_cases r3 : a ≤ 0x5FFF
  · rw [write_byte_bank2 m a v (by omega) r3] at h; cases h; rfl
  by_cases r4 : a ≤ 0x7FFF
  · rw [write_byte_mode m a v (by omega) r4] at h; cases h; rfl
  by_cases r5 : a ≤ 0x9FFF
  · rw [write_byte_vram m a v (by omega) r5] at h; cases h; rfl
  by_cases r6 : a ≤ 0xBFFF
  · rw [write_byte_eram m a v (by omega) r6] at h
    split_ifs at h
    · rcases he : m.eram.get? ((m.rom_bank &&& 0b01100000) >>> 5) with _ | b <;> rw [he] at h
      · simp at h
      · cases h; rfl
    · rcases he : m.eram.get? 0 with _ | b <;> rw [he] at h
      · simp at h
      · cases h; rfl
    · cases h; rfl
  by_cases r7 : a ≤ 0xCFFF
  · rw [write_byte_wram1 m a v (by omega) r7] at h; cases h; rfl
  by_cases r8 : a ≤ 0xDFFF
  · rw [write_byte_wram2 m a v (by omega) r8] at h; cases h; rfl
  by_cases r9 : a ≤ 0xFDFF
  · rw [write_byte_echo m a v (by omega) r9] at h; cases h; rfl
  by_cases r10 : a ≤ 0xFE9F
  · rw [write_byte_oam m a v (by omega) r10] at h; cases h; rfl
  by_cases r11 : a ≤ 0xFEFF
  · rw [write_byte_prohibited m a v (by omega) r11] at h; cases h; rfl
  by_cases r12 : a ≤ 0xFF7F
  · rw [write_byte_io m a v (by omega) r12 c2 c3] at h; cases h; rfl
  by_cases r13 : a ≤ 0xFFFE
  · rw [write_byte_hram m a v (by omega) r13] at h; cases h; rfl
  · rw [write_byte_ie m a v (by omega)] at h; cases h; rfl

/-- C10: once a cartridge image has been loaded, the ROM bank contents
held by the MMU are immutable: no sequence of read_byte/write_byte calls
changes any ROM byte (read_byte is pure, so the write subsequence is
what matters), and a write anywhere in 0x0000–0x7FFF changes nothing but
the banking-control fields ram_enable, rom_bank and rom_mode. -/
theorem c10_rom_immutable :
    (∀ (m : Mmu) (ops : List (Nat × Nat)) (m' : Mmu),
      execWrites m ops = some m' → m'.rom = m.rom)
    ∧ (∀ (m : Mmu) (a v : Nat) (m' : Mmu), a ≤ 0x7FFF → m.write_byte a v = some m' →
        m' = { m with ram_enable := m'.ram_enable, rom_bank := m'.rom_bank, rom_mode := m'.rom_mode }) := by
  constructor
  · intro m ops
    induction ops generalizing m with
    | nil =>
      intro m' h
      unfold execWrites at h
      cases h
      rfl
    | cons op rest ih =>
      intro m' h
      unfold execWrites at h
      cases hw : m.write_byte op.1 op.2 with
      | none => rw [hw] at h; simp at h
      | some m1 =>
        rw [hw] at h
        simp only [Option.bind_eq_bind, Option.some_bind] at h
        exact (ih m1 m' h).trans (write_byte_rom m op.1 op.2 m1 hw)
  · intro m a v m' hle h
    by_cases r1 : a ≤ 0x1FFF
    · rw [write_byte_ramg m a v r1] at h; cases h; rfl
    by_cases r2 : a ≤ 0x3FFF
    · rw [write_byte_bank1 m a v (by omega) r2] at h; cases h; rfl
    by_cases r3 : a ≤ 0x5FFF
    · rw [write_byte_bank2 m a v (by omega) r3] at h; cases h; rfl
    · rw [write_byte_mode m a v (by omega) (by omega)] at h; cases h; rfl

/-- Witness for C10 at a concrete loaded MMU and a concrete write
sequence of two banking-register writes. -/
theorem c10_witness :
    ∃ m', execWrites mmuC8 [(0x2000, 0x05), (0x6000, 0x01)] = some m'
      ∧ m'.rom = mmuC8.rom :=
  ⟨_, rfl, c10_rom_immutable.1 mmuC8 [(0x2000, 0x05), (0x6000, 0x01)] _ rfl⟩

/-! ## Interrupt dispatch (claim C1) -/

/-- C1: the interrupt-dispatch code run after each instruction services
only VBlank and LCD STAT. At a state with IME set and a pending, enabled
Timer interrupt (IE = IF = 0x04) nothing happens: PC stays put (it does
not become 0x50), IME stays set and the IF bit stays pending — the
source's TODO arm. For contrast, a pending enabled VBlank interrupt is
serviced as the claim describes: IME cleared, IF bit cleared, PC moved
to 0x40 (with the old PC pushed at SP-2). -/
theorem c1_timer_interrupt_unserviced :
    (cpuC1.serviceInterrupts).map (fun c => (c.pc, c.ime, c.mmu.io 0x0F, c.sp))
        = some (0xC123, true, 0x04, 0xD000)
      ∧ (cpuC1v.serviceInterrupts).map (fun c => (c.pc, c.ime, c.mmu.io 0x0F, c.sp))
        = some (0x40, false, 0x00, 0xCFFE) := by
  constructor
  · rfl
  · rfl

/-! ## HALT (claim C2) -/

/-- C2: executing opcode 0x76 does not enter the halted state. At a
concrete machine with 0x76 at PC (and HL pointing into work RAM), step
decodes it in the `ld r8, r8` block as LD (HL),(HL): the CPU stays in
State::Running (no code path ever constructs State::Halted), PC
advances by 1 and the instruction costs 1 M-cycle. -/
theorem c2_halt_executes_as_ld :
    (cpuC2.step).map (fun r => (r.1.state, r.1.pc, r.2)) = some (State.Running, 0xC001, 1)
      ∧ State.Running ≠ State.Halted := by
  constructor
  · rfl
  · decide

/-! ## EI (claim C3) -/

/-- C3 counterexample: EI takes effect immediately. At a machine with
IME clear about to execute EI while a VBlank interrupt is pending and
enabled, the EI step itself sets IME, and the interrupt check that
game_loop runs right after the instruction services the interrupt
(PC = 0x40) — before the instruction after EI ever executes. -/
theorem c3_counterexample :
    cpuC3.ime = false
      ∧ (cpuC3.step).map (fun r => r.1.ime) = some true
      ∧ ((cpuC3.step).bind fun r => r.1.serviceInterrupts).map (fun c => (c.pc, c.ime))
          = some (0x40, false) := by
  refine ⟨rfl, rfl, rfl⟩

/-- C3 as amended: executing EI (opcode 0xFB) sets IME during the EI
step itself — there is no one-instruction delay — and advances PC by 1
at a cost of 1 M-cycle. -/
theorem c3_ei_immediate (cpu : Cpu) (h : cpu.mmu.read_byte cpu.pc = some 0xFB) :
    cpu.step = some ({ cpu with ime := true, pc := wadd16 cpu.pc 1 }, 1) := by
  unfold Cpu.step
  rw [h]
  rfl

/-- Witness for the amended C3 at the concrete EI machine. -/
theorem c3_ei_immediate_witness :
    cpuC3.step = some ({ cpuC3 with ime := true, pc := wadd16 cpuC3.pc 1 }, 1) :=
  c3_ei_immediate cpuC3 rfl

/-! ## DAA after ADD (claim C4) -/

/-- add_a_r8 never reads the incoming flags (it rebuilds the whole flag
record), so the initial zero flag is irrelevant. -/
theorem add_a_r8_flags_irrel (a b : Nat) (f f' : Flags) :
    add_a_r8 a b f = add_a_r8 a b f' := rfl

set_option maxRecDepth 100000 in
theorem daaCheck_all :
    ((List.range 100).all fun x => (List.range 100).all fun y => daaCheck x y) = true := by
  rfl

theorem daaCheck_true (x y : Nat) (hx : x < 100) (hy : y < 100) : daaCheck x y = true := by
  have h := daaCheck_all
  rw [List.all_eq_true] at h
  have hx' := h x (List.mem_range.mpr hx)
  rw [List.all_eq_true] at hx'
  exact hx' y (List.mem_range.mpr hy)

set_option maxRecDepth 100000 in
theorem bcd_val_inv : ∀ a < 256, a >>> 4 ≤ 9 → a &&& 0xF ≤ 9 →
    bcd (bcdVal a) = a ∧ bcdVal a < 100 := by decide

/-- C4: for bytes a and b that are valid BCD encodings (both nibbles at
most 9) of values x = bcdVal a and y = bcdVal b below 100, starting from
flags with N=0, HC=0, C=0 (and any Z), ADD A,b followed by DAA leaves A
holding the BCD encoding of (x+y) mod 100, with the carry flag set
exactly when x+y ≥ 100. -/
theorem c4_daa_after_add (z0 : Bool) (a b : Nat) (ha : a < 256) (hb : b < 256)
    (ha1 : a >>> 4 ≤ 9) (ha2 : a &&& 0xF ≤ 9) (hb1 : b >>> 4 ≤ 9) (hb2 : b &&& 0xF ≤ 9) :
    (daa (add_a_r8 a b ⟨z0, false, false, false⟩).1
        (add_a_r8 a b ⟨z0, false, false, false⟩).2).1
        = bcd ((bcdVal a + bcdVal b) % 100)
      ∧ ((daa (add_a_r8 a b ⟨z0, false, false, false⟩).1
          (add_a_r8 a b ⟨z0, false, false, false⟩).2).2.carry = true
        ↔ 100 ≤ bcdVal a + bcdVal b) := by
  obtain ⟨hae, hax⟩ := bcd_val_inv a ha ha1 ha2
  obtain ⟨hbe, hbx⟩ := bcd_val_inv b hb hb1 hb2
  have h := daaCheck_true (bcdVal a) (bcdVal b) hax hbx
  rw [daaCheck] at h
  simp only [hae, hbe, Bool.and_eq_true, beq_iff_eq] at h
  rw [add_a_r8_flags_irrel a b ⟨z0, false, false, false⟩ ⟨false, false, false, false⟩]
  refine ⟨h.1, ?_⟩
  rw [h.2]
  exact decide_eq_true_iff

/-- Witness for C4 at the spec's own scenario: A = 0x45 plus 0x38, then
DAA (expected result 0x83 = BCD 83, carry clear). -/
theorem c4_witness :
    (daa (add_a_r8 0x45 0x38 ⟨false, false, false, false⟩).1
        (add_a_r8 0x45 0x38 ⟨false, false, false, false⟩).2).1
        = bcd ((bcdVal 0x45 + bcdVal 0x38) % 100)
      ∧ ((daa (add_a_r8 0x45 0x38 ⟨false, false, false, false⟩).1
          (add_a_r8 0x45 0x38 ⟨false, false, false, false⟩).2).2.carry = true
        ↔ 100 ≤ bcdVal 0x45 + bcdVal 0x38) :=
  c4_daa_after_add false 0x45 0x38 (by decide) (by decide) (by decide) (by decide)
    (by decide) (by decide)

/-! ## SET then RES (claim C6) -/

/-- C6 counterexample: SET 0 on the byte 1 gives 1, and RES 0 on that
gives 0, not the original byte — the claimed identity fails whenever bit
i of b is already set. -/
theorem c6_counterexample : res_b3_r8 0 (set_b3_r8 0 1) ≠ 1 := by decide

set_option maxRecDepth 100000 in
/-- C6 as amended: for every byte b and bit index i in 0..7, SET i then
RES i yields b with bit i cleared — equal to the original byte exactly
when bit i of b was 0. -/
theorem c6_set_res (b i : Nat) (hb : b < 256) (hi : i < 8) :
    res_b3_r8 i (set_b3_r8 i b) = b &&& (0xFF ^^^ ((1 <<< i) % 256))
      ∧ (res_b3_r8 i (set_b3_r8 i b) = b ↔ b.testBit i = false) := by
  have h : ∀ b < 256, ∀ i < 8,
      res_b3_r8 i (set_b3_r8 i b) = b &&& (0xFF ^^^ ((1 <<< i) % 256))
        ∧ (res_b3_r8 i (set_b3_r8 i b) = b ↔ b.testBit i = false) := by decide
  exact h b hb i hi

/-- Witness for the amended C6 at b = 4, i = 0. -/
theorem c6_witness :
    res_b3_r8 0 (set_b3_r8 0 4) = 4 &&& (0xFF ^^^ ((1 <<< 0) % 256))
      ∧ (res_b3_r8 0 (set_b3_r8 0 4) = 4 ↔ (4 : Nat).testBit 0 = false) :=
  c6_set_res 4 0 (by decide) (by decide)

/-! ## DIV write (claim C7) -/

/-- C7 counterexample: at an MMU with TAC = 0b100 (enable, mux 00, so
the selected counter bit is bit 9) and the internal counter 0x0200
(bit 9 set), writing 0x55 to FF04 zeroes the counter but leaves TIMA
(io[05]) at 0 — no quirk increment — and an immediate read of FF04
returns 0x55, not 0x00, because the write stored 0x55 into the io latch
that DIV reads. -/
theorem c7_counterexample :
    (mmuC7.write_byte 0xFF04 0x55).map (fun m => (m.timer, m.io 0x05)) = some (0, 0)
      ∧ ((mmuC7.write_byte 0xFF04 0x55).bind fun m => m.read_byte 0xFF04) = some 0x55
      ∧ ((mmuC7.write_byte 0xFF04 0x55).bind fun m => m.read_byte 0xFF04) ≠ some 0x00 := by
  refine ⟨rfl, rfl, by decide⟩

/-- C7 as amended: writing any value v to FF04 zeroes the internal
16-bit timer counter and stores v into the io latch at index 4 like any
other IO write; TIMA (io[05]) is untouched, and a read of FF04
immediately after the write returns v (the latch is refreshed from the
counter's high byte only by increment_timer). -/
theorem c7_div_write (m : Mmu) (v : Nat) :
    m.write_byte 0xFF04 v = some { m with timer := 0, io := upd m.io 0x04 v }
      ∧ ((m.write_byte 0xFF04 v).bind fun m' => m'.read_byte 0xFF04) = some v
      ∧ ((m.write_byte 0xFF04 v).map fun m' => m'.io 0x05) = some (m.io 0x05) := by
  have hw := write_byte_ff04 m 0xFF04 v rfl
  refine ⟨hw, ?_, ?_⟩
  · rw [hw]
    simp only [Option.bind_eq_bind, Option.some_bind]
    rw [read_byte_io _ 0xFF04 (by omega) (by omega)]
    simp [upd]
  · rw [hw]
    simp only [Option.map_some']
    simp [upd]

/-! ## MMU totality (claim C8) -/

theorem get?_isSome_of_lt {α : Type} (l : List α) (n : Nat) (h : n < l.length) :
    (l.get? n).isSome := by
  rw [List.get?_eq_get h]
  rfl

theorem isSome_map_get {α β : Type} (f : α → β) (l : List α) (n : Nat) (h : n < l.length) :
    ((l.get? n).map f).isSome := by
  rw [List.get?_eq_get h]
  rfl

theorem bank2_le_3 (x : Nat) : (x &&& 0b01100000) >>> 5 ≤ 3 := by
  have h1 : x &&& 0b01100000 ≤ 96 := Nat.and_le_right
  rw [Nat.shiftRight_eq_div_pow]
  omega

theorem read_byte_total (m : Mmu) (hwf : m.Wf) : ∀ a, (m.read_byte a).isSome := by
  obtain ⟨hlen, hsz, helen, hren, hrs4⟩ := hwf
  intro a
  have hmod : ∀ x, x % m.rom_size < m.rom_size := fun x => Nat.mod_lt x (by omega)
  by_cases r1 : a ≤ 0x00FF
  · rw [read_byte_low m a r1]
    split_ifs with h50 hrm hs0
    · rfl
    · exact isSome_map_get _ _ _ (by omega)
    · omega
    · exact isSome_map_get _ _ _ (by rw [hlen]; exact hmod _)
  by_cases r2 : a ≤ 0x3FFF
  · rw [read_byte_rom0 m a (by omega) r2]
    split_ifs with hrm hs0
    · exact isSome_map_get _ _ _ (by omega)
    · omega
    · exact isSome_map_get _ _ _ (by rw [hlen]; exact hmod _)
  by_cases r3 : a ≤ 0x7FFF
  · rw [read_byte_romN m a (by omega) r3]
    split_ifs with hs2 hb1 hb2 hb3
    · rfl
    · exact isSome_map_get _ _ _ (by omega)
    · exact isSome_map_get _ _ _ (by omega)
    · exact isSome_map_get _ _ _ (by omega)
    · exact isSome_map_get _ _ _ (by rw [hlen]; exact hmod _)
  by_cases r4 : a ≤ 0x9FFF
  · rw [read_byte_vram m a (by omega) r4]; rfl
  by_cases r5 : a ≤ 0xBFFF
  · rw [read_byte_eram m a (by omega) r5]
    split_ifs with he hm
    · refine isSome_map_get _ _ _ ?_
      have := bank2_le_3 m.rom_bank
      omega
    · refine isSome_map_get _ _ _ ?_
      have := hren he.1
      omega
    · rfl
  by_cases r6 : a ≤ 0xCFFF
  · rw [read_byte_wram1 m a (by omega) r6]; rfl
  by_cases r7 : a ≤ 0xDFFF
  · rw [read_byte_wram2 m a (by omega) r7]; rfl
  by_cases r8 : a ≤ 0xFDFF
  · rw [read_byte_echo m a (by omega) r8]; rfl
  by_cases r9 : a ≤ 0xFE9F
  · rw [read_byte_oam m a (by omega) r9]; rfl
  by_cases r10 : a ≤ 0xFEFF
  · rw [read_byte_prohibited m a (by omega) r10]; rfl
  by_cases r11 : a ≤ 0xFF7F
  · rw [read_byte_io m a (by omega) r11]; rfl
  by_cases r12 : a ≤ 0xFFFE
  · rw [read_byte_hram m a (by omega) r12]; rfl
  · rw [read_byte_ie m a (by omega)]; rfl

theorem wf_oam (m : Mmu) (x : Nat → Nat) (h : m.Wf) : Mmu.Wf { m with oam := x } := h

theorem dmaCopy_total : ∀ (n : Nat) (m : Mmu) (start : Nat), m.Wf →
    (m.dmaCopy start n).isSome := by
  intro n
  induction n with
  | zero => intro m start _; rfl
  | succ n ih =>
    intro m start hwf
    unfold Mmu.dmaCopy
    cases hr : m.read_byte (start + (0xA0 - (n + 1))) with
    | none =>
      have := read_byte_total m hwf (start + (0xA0 - (n + 1)))
      rw [hr] at this
      simp at this
    | some v =>
      simp only [Option.bind_eq_bind, Option.some_bind]
      exact ih _ _ (wf_oam m _ hwf)

theorem write_byte_total (m : Mmu) (hwf : m.Wf) : ∀ a v, (m.write_byte a v).isSome := by
  intro a v
  obtain ⟨hlen, hsz, helen, hren, hrs4⟩ := hwf
  by_cases c1 : a = 0xFF00
  · rw [write_byte_ff00 m a v c1]; rfl
  by_cases c2 : a = 0xFF04
  · rw [write_byte_ff04 m a v c2]; rfl
  by_cases c3 : a = 0xFF46
  · rw [write_byte_ff46 m a v c3]
    exact dmaCopy_total _ _ _ ⟨hlen, hsz, helen, hren, hrs4⟩
  by_cases r1 : a ≤ 0x1FFF
  · rw [write_byte_ramg m a v r1]; rfl
  by_cases r2 : a ≤ 0x3FFF
  · rw [write_byte_bank1 m a v (by omega) r2]; rfl
  by_cases r3 : a ≤ 0x5FFF
  · rw [write_byte_bank2 m a v (by omega) r3]; rfl
  by_cases r4 : a ≤ 0x7FFF
  · rw [write_byte_mode m a v (by omega) r4]; rfl
  by_cases r5 : a ≤ 0x9FFF
  · rw [write_byte_vram m a v (by omega) r5]; rfl
  by_cases r6 : a ≤ 0xBFFF
  · rw [write_byte_eram m a v (by omega) r6]
    split_ifs with he hm
    · have hlt : (m.rom_bank &&& 0b01100000) >>> 5 < m.eram.length := by
        have := bank2_le_3 m.rom_bank
        have := hren he
        omega
      cases hq : m.eram.get? ((m.rom_bank &&& 0b01100000) >>> 5) with
      | none =>
        have := get?_isSome_of_lt _ _ hlt
        rw [hq] at this
        simp at this
      | some b => rfl
    · have hlt : 0 < m.eram.length := by
        have := hren he
        omega
      cases hq : m.eram.get? 0 with
      | none =>
        have := get?_isSome_of_lt _ _ hlt
        rw [hq] at this
        simp at this
      | some b => rfl
    · rfl
  by_cases r7 : a ≤ 0xCFFF
  · rw [write_byte_wram1 m a v (by omega) r7]; rfl
  by_cases r8 : a ≤ 0xDFFF
  · rw [write_byte_wram2 m a v (by omega) r8]; rfl
  by_cases r9 : a ≤ 0xFDFF
  · rw [write_byte_echo m a v (by omega) r9]; rfl
  by_cases r10 : a ≤ 0xFE9F
  · rw [write_byte_oam m a v (by omega) r10]; rfl
  by_cases r11 : a ≤ 0xFEFF
  · rw [write_byte_prohibited m a v (by omega) r11]; rfl
  by_cases r12 : a ≤ 0xFF7F
  · rw [write_byte_io m a v (by omega) r12 c2 c3]; rfl
  by_cases r13 : a ≤ 0xFFFE
  · rw [write_byte_hram m a v (by omega) r13]; rfl
  · rw [write_byte_ie m a v (by omega)]; rfl

/-- C8 counterexample: before a cartridge is loaded, the MMU is not
total. A read of 0x0100 on a fresh MMU indexes rom[0] of an empty bank
list (a Rust panic, none here), and a write of 0x01 to the DMA register
FF46 fails the same way while copying from 0x0100. -/
theorem c8_counterexample :
    mmuFresh.read_byte 0x0100 = none ∧ mmuFresh.write_byte 0xFF46 0x01 = none :=
  ⟨rfl, rfl⟩

/-- C8 as amended: for every well-formed loaded MMU state — the ROM bank
list matches the declared size (at least 2 banks), the external-RAM bank
list matches its declared size with RAM enabled only when present, and
declared RAM sizes follow load_game's table — read_byte returns a
defined byte at every address and write_byte completes at every address
and value, with no out-of-bounds bank index and no modulo by zero.
Without a loaded cartridge this fails (see the counterexample). -/
theorem c8_mmu_total (m : Mmu) (h : m.Wf) :
    (∀ a, (m.read_byte a).isSome) ∧ (∀ a v, (m.write_byte a v).isSome) :=
  ⟨read_byte_total m h, write_byte_total m h⟩

theorem mmuC8_wf : mmuC8.Wf :=
  ⟨rfl, by decide, rfl, by decide, by decide⟩

/-- Witness for the amended C8 at a concrete two-bank loaded MMU, at the
very inputs that fail on the fresh MMU. -/
theorem c8_witness :
    (mmuC8.read_byte 0x0100).isSome ∧ (mmuC8.write_byte 0xFF46 0x01).isSome :=
  ⟨(c8_mmu_total mmuC8 mmuC8_wf).1 0x0100, (c8_mmu_total mmuC8 mmuC8_wf).2 0xFF46 0x01⟩



theorem testBit_byte_high (lo i : Nat) (h : lo < 256) (hi : 8 ≤ i) : lo.testBit i = false := by
  apply Nat.testBit_lt_two_pow
  calc lo < 256 := h
    _ = 2 ^ 8 := rfl
    _ ≤ 2 ^ i := Nat.pow_le_pow_right (by norm_num) hi

theorem word_lo (hi lo : Nat) (h : lo < 256) : ((hi <<< 8) ||| lo) % 256 = lo := by
  apply Nat.eq_of_testBit_eq
  intro i
  rw [show (256 : Nat) = 2 ^ 8 from rfl, Nat.testBit_mod_two_pow, Nat.testBit_lor,
    Nat.testBit_shiftLeft]
  by_cases hi8 : i < 8
  · simp [hi8, show ¬i ≥ 8 by omega]
  · simp [hi8, testBit_byte_high lo i h (by omega)]

theorem word_hi (hi lo : Nat) (h : lo < 256) : ((hi <<< 8) ||| lo) >>> 8 = hi := by
  apply Nat.eq_of_testBit_eq
  intro j
  rw [Nat.testBit_shiftRight, Nat.testBit_lor, Nat.testBit_shiftLeft]
  simp [testBit_byte_high lo (8 + j) h (by omega), show 8 + j ≥ 8 by omega,
    show 8 + j - 8 = j by omega]

theorem to_u8_lt (f : Flags) : f.to_u8 < 256 := by
  rcases f with ⟨z, n, h, c⟩
  cases z <;> cases n <;> cases h <;> cases c <;> decide

theorem to_u8_low_nibble (f : Flags) : f.to_u8 % 16 = 0 := by
  rcases f with ⟨z, n, h, c⟩
  cases z <;> cases n <;> cases h <;> cases c <;> decide

theorem set_from_to_u8 (f : Flags) : Flags.set_from_u8 f.to_u8 = f := by
  rcases f with ⟨z, n, h, c⟩
  cases z <;> cases n <;> cases h <;> cases c <;> decide

theorem read_byte_congr (m m' : Mmu) (a' : Nat) (hle : a' ≤ 0xFFFF)
    (h50 : m'.io 0x50 = m.io 0x50)
    (hrom : m'.rom = m.rom) (hrs : m'.rom_size = m.rom_size)
    (hrm : m'.rom_mode = m.rom_mode) (hrb : m'.rom_bank = m.rom_bank)
    (hren : m'.ram_enable = m.ram_enable) (hras : m'.ram_size = m.ram_size)
    (heram : m'.eram = m.eram)
    (hboot : a' ≤ 0xFF → m'.bootstrap a' = m.bootstrap a')
    (hvram : 0x8000 ≤ a' → a' ≤ 0x9FFF → m'.vram (a' - 0x8000) = m.vram (a' - 0x8000))
    (hw1 : 0xC000 ≤ a' → a' ≤ 0xCFFF → m'.wram1 (a' - 0xC000) = m.wram1 (a' - 0xC000))
    (hw2 : 0xD000 ≤ a' → a' ≤ 0xDFFF → m'.wram2 (a' - 0xD000) = m.wram2 (a' - 0xD000))
    (hoam : 0xFE00 ≤ a' → a' ≤ 0xFE9F → m'.oam (a' - 0xFE00) = m.oam (a' - 0xFE00))
    (hio : 0xFF00 ≤ a' → a' ≤ 0xFF7F → m'.io (a' - 0xFF00) = m.io (a' - 0xFF00))
    (hhram : 0xFF80 ≤ a' → a' ≤ 0xFFFE → m'.hram (a' - 0xFF80) = m.hram (a' - 0xFF80))
    (hie : a' = 0xFFFF → m'.ie = m.ie) :
    m'.read_byte a' = m.read_byte a' := by
  by_cases r1 : a' ≤ 0x00FF
  · rw [read_byte_low m' a' r1, read_byte_low m a' r1, h50, hrm, hrom, hrs, hrb, hboot r1]
  by_cases r2 : a' ≤ 0x3FFF
  · rw [read_byte_rom0 m' a' (by omega) r2, read_byte_rom0 m a' (by omega) r2,
      hrm, hrom, hrs, hrb]
  by_cases r3 : a' ≤ 0x7FFF
  · rw [read_byte_romN m' a' (by omega) r3, read_byte_romN m a' (by omega) r3,
      hrs, hrom, hrb]
  by_cases r4 : a' ≤ 0x9FFF
  · rw [read_byte_vram m' a' (by omega) r4, read_byte_vram m a' (by omega) r4,
      hvram (by omega) r4]
  by_cases r5 : a' ≤ 0xBFFF
  · rw [read_byte_eram m' a' (by omega) r5, read_byte_eram m a' (by omega) r5,
      hren, hras, hrm, hrb, heram]
  by_cases r6 : a' ≤ 0xCFFF
  · rw [read_byte_wram1 m' a' (by omega) r6, read_byte_wram1 m a' (by omega) r6,
      hw1 (by omega) r6]
  by_cases r7 : a' ≤ 0xDFFF
  · rw [read_byte_wram2 m' a' (by omega) r7, read_byte_wram2 m a' (by omega) r7,
      hw2 (by omega) r7]
  by_cases r8 : a' ≤ 0xFDFF
  · rw [read_byte_echo m' a' (by omega) r8, read_byte_echo m a' (by omega) r8]
  by_cases r9 : a' ≤ 0xFE9F
  · rw [read_byte_oam m' a' (by omega) r9, read_byte_oam m a' (by omega) r9,
      hoam (by omega) r9]
  by_cases r10 : a' ≤ 0xFEFF
  · rw [read_byte_prohibited m' a' (by omega) r10, read_byte_prohibited m a' (by omega) r10]
  by_cases r11 : a' ≤ 0xFF7F
  · rw [read_byte_io m' a' (by omega) r11, read_byte_io m a' (by omega) r11,
      hio (by omega) r11]
  by_cases r12 : a' ≤ 0xFFFE
  · rw [read_byte_hram m' a' (by omega) r12, read_byte_hram m a' (by omega) r12,
      hhram (by omega) r12]
  · rw [read_byte_ie m' a' (by omega), read_byte_ie m a' (by omega), hie (by omega)]

set_option maxRecDepth 4000 in
theorem plainStore_write (m : Mmu) (a v : Nat) (hp : PlainStore a) :
    ∃ m', m.write_byte a v = some m' ∧ m'.read_byte a = some v
      ∧ ∀ a', a' ≤ 0xFFFF → a' ≠ a → m'.read_byte a' = m.read_byte a' := by
  rcases hp with ⟨h1, h2⟩ | ⟨h1, h2⟩ | ⟨h1, h2⟩ | ⟨h1, h2, h3, h4⟩ | ⟨h1, h2⟩
  · refine ⟨{ m with vram := upd m.vram (a - 0x8000) v },
      write_byte_vram m a v h1 h2, ?_, ?_⟩
    · rw [read_byte_vram _ a h1 h2]
      simp only [upd, if_pos]
    · intro a' hle hne
      apply read_byte_congr
      · exact hle
      · rfl
      · rfl
      · rfl
      · rfl
      · rfl
      · rfl
      · rfl
      · rfl
      · intro g; rfl
      · intro g1 g2; simp only [upd]; rw [ifn (by omega)]
      · intro g1 g2; rfl
      · intro g1 g2; rfl
      · intro g1 g2; rfl
      · intro g1 g2; rfl
      · intro g1 g2; rfl
      · intro g; rfl
  · by_cases hw : a ≤ 0xCFFF
    · refine ⟨{ m with wram1 := upd m.wram1 (a - 0xC000) v },
        write_byte_wram1 m a v h1 hw, ?_, ?_⟩
      · rw [read_byte_wram1 _ a h1 hw]
        simp only [upd, if_pos]
      · intro a' hle hne
        apply read_byte_congr
        · exact hle
        · rfl
        · rfl
        · rfl
        · rfl
        · rfl
        · rfl
        · rfl
        · rfl
        · intro g; rfl
        · intro g1 g2; rfl
        · intro g1 g2; simp only [upd]; rw [ifn (by omega)]
        · intro g1 g2; rfl
        · intro g1 g2; rfl
        · intro g1 g2; rfl
        · intro g1 g2; rfl
        · intro g; rfl
    · refine ⟨{ m with wram2 := upd m.wram2 (a - 0xD000) v },
        write_byte_wram2 m a v (by omega) h2, ?_, ?_⟩
      · rw [read_byte_wram2 _ a (by omega) h2]
        simp only [upd, if_pos]
      · intro a' hle hne
        apply read_byte_congr
        · exact hle
        · rfl
        · rfl
        · rfl
        · rfl
        · rfl
        · rfl
        · rfl
        · rfl
        · intro g; rfl
        · intro g1 g2; rfl
        · intro g1 g2; rfl
        · intro g1 g2; simp only [upd]; rw [ifn (by omega)]
        · intro g1 g2; rfl
        · intro g1 g2; rfl
        · intro g1 g2; rfl
        · intro g; rfl
  · refine ⟨{ m with oam := upd m.oam (a - 0xFE00) v },
      write_byte_oam m a v h1 h2, ?_, ?_⟩
    · rw [read_byte_oam _ a h1 h2]
      simp only [upd, if_pos]
    · intro a' hle hne
      apply read_byte_congr
      · exact hle
      · rfl
      · rfl
      · rfl
      · rfl
      · rfl
      · rfl
      · rfl
      · rfl
      · intro g; rfl
      · intro g1 g2; rfl
      · intro g1 g2; rfl
      · intro g1 g2; rfl
      · intro g1 g2; simp only [upd]; rw [ifn (by omega)]
      · intro g1 g2; rfl
      · intro g1 g2; rfl
      · intro g; rfl
  · by_cases hff04 : a = 0xFF04
    · subst hff04
      refine ⟨{ m with timer := 0, io := upd m.io 0x04 v },
        write_byte_ff04 m 0xFF04 v rfl, ?_, ?_⟩
      · rw [read_byte_io _ 0xFF04 (by omega) (by omega)]
        simp only [upd]
        rw [if_pos (by norm_num)]
      · intro a' hle hne
        apply read_byte_congr
        · exact hle
        · simp only [upd]; rw [ifn (by omega)]
        · rfl
        · rfl
        · rfl
        · rfl
        · rfl
        · rfl
        · rfl
        · intro g; rfl
        · intro g1 g2; rfl
        · intro g1 g2; rfl
        · intro g1 g2; rfl
        · intro g1 g2; rfl
        · intro g1 g2; simp only [upd]; rw [ifn (by omega)]
        · intro g1 g2; rfl
        · intro g; rfl
    · refine ⟨{ m with io := upd m.io (a - 0xFF00) v },
        write_byte_io m a v h1 h2 hff04 h3, ?_, ?_⟩
      · rw [read_byte_io _ a (by omega) h2]
        simp only [upd, if_pos]
      · intro a' hle hne
        apply read_byte_congr
        · exact hle
        · simp only [upd]; rw [ifn (by omega)]
        · rfl
        · rfl
        · rfl
        · rfl
        · rfl
        · rfl
        · rfl
        · intro g; rfl
        · intro g1 g2; rfl
        · intro g1 g2; rfl
        · intro g1 g2; rfl
        · intro g1 g2; rfl
        · intro g1 g2; simp only [upd]; rw [ifn (by omega)]
        · intro g1 g2; rfl
        · intro g; rfl
  · by_cases hhr : a ≤ 0xFFFE
    · refine ⟨{ m with hram := upd m.hram (a - 0xFF80) v },
        write_byte_hram m a v h1 hhr, ?_, ?_⟩
      · rw [read_byte_hram _ a h1 hhr]
        simp only [upd, if_pos]
      · intro a' hle hne
        apply read_byte_congr
        · exact hle
        · rfl
        · rfl
        · rfl
        · rfl
        · rfl
        · rfl
        · rfl
        · rfl
        · intro g; rfl
        · intro g1 g2; rfl
        · intro g1 g2; rfl
        · intro g1 g2; rfl
        · intro g1 g2; rfl
        · intro g1 g2; rfl
        · intro g1 g2; simp only [upd]; rw [ifn (by omega)]
        · intro g; rfl
    · refine ⟨{ m with ie := v }, write_byte_ie m a v (by omega), ?_, ?_⟩
      · rw [read_byte_ie _ a (by omega)]
      · intro a' hle hne
        apply read_byte_congr
        · exact hle
        · rfl
        · rfl
        · rfl
        · rfl
        · rfl
        · rfl
        · rfl
        · rfl
        · intro g; rfl
        · intro g1 g2; rfl
        · intro g1 g2; rfl
        · intro g1 g2; rfl
        · intro g1 g2; rfl
        · intro g1 g2; rfl
        · intro g1 g2; rfl
        · intro g; exact absurd (show a' = a by omega) hne

theorem step_push_af (cpu : Cpu) (hop : cpu.mmu.read_byte cpu.pc = some 0xF5) :
    cpu.step = (cpu.mmu.write_word (wsub16 cpu.sp 2)
        ((cpu.registers.a <<< 8) ||| cpu.registers.flags.to_u8)).bind
      (fun m =>
        some ({ cpu with mmu := m, sp := wsub16 cpu.sp 2, pc := wadd16 cpu.pc 1 }, 3)) := by
  show (cpu.mmu.read_byte cpu.pc).bind cpu.stepOp = _
  rw [hop, Option.some_bind]
  unfold Cpu.stepOp
  rw [if_neg (by decide)]
  show cpu.stepBlock3 0xF5 = _
  unfold Cpu.stepBlock3
  rw [if_neg (by decide), if_neg (by decide)]
  rfl

theorem step_pop_af (cpu : Cpu) (hop : cpu.mmu.read_byte cpu.pc = some 0xF1) :
    cpu.step = (cpu.mmu.read_byte cpu.sp).bind (fun lo =>
      (cpu.mmu.read_byte (wadd16 cpu.sp 1)).bind (fun hi =>
        some (⟨{ cpu.registers with a := hi, flags := Flags.set_from_u8 lo }, wadd16 cpu.pc 1, wadd16 cpu.sp 2, cpu.ime, cpu.state, cpu.mmu⟩, 4))) := by
  show (cpu.mmu.read_byte cpu.pc).bind cpu.stepOp = _
  rw [hop, Option.some_bind]
  unfold Cpu.stepOp
  rw [if_neg (by decide)]
  show cpu.stepBlock3 0xF1 = _
  unfold Cpu.stepBlock3
  rw [if_neg (by decide), if_neg (by decide)]
  rfl


/-- C5 (amended): PUSH AF then POP AF restores A, the flags and SP, and
the F byte materialized on the stack by the push has a zero low nibble —
provided A is a byte, the two stack slots are plain writable stores
(VRAM/WRAM/OAM/plain IO/HRAM-IE), and the POP opcode is not overwritten
by the push. -/
theorem c5_amended (cpu : Cpu)
    (ha : cpu.registers.a < 256) (hsp : cpu.sp ≤ 0xFFFF)
    (hs0 : PlainStore (wsub16 cpu.sp 2))
    (hs1 : PlainStore (wadd16 (wsub16 cpu.sp 2) 1))
    (hpc : cpu.mmu.read_byte cpu.pc = some 0xF5)
    (hpc1 : cpu.mmu.read_byte (wadd16 cpu.pc 1) = some 0xF1)
    (hpc1a : wadd16 cpu.pc 1 ≠ wsub16 cpu.sp 2)
    (hpc1b : wadd16 cpu.pc 1 ≠ wadd16 (wsub16 cpu.sp 2) 1) :
    ∃ m2 c2,
      cpu.step = some ({ cpu with mmu := m2, sp := wsub16 cpu.sp 2, pc := wadd16 cpu.pc 1 }, 3)
      ∧ m2.read_byte (wsub16 cpu.sp 2) = some cpu.registers.flags.to_u8
      ∧ cpu.registers.flags.to_u8 % 16 = 0
      ∧ ({ cpu with mmu := m2, sp := wsub16 cpu.sp 2, pc := wadd16 cpu.pc 1 } : Cpu).step
          = some (c2, 4)
      ∧ c2.registers.a = cpu.registers.a
      ∧ c2.registers.flags = cpu.registers.flags
      ∧ c2.sp = cpu.sp
      ∧ c2.pc = wadd16 cpu.pc 2 := by
  obtain ⟨m1, hw1, hr1, hp1⟩ := plainStore_write cpu.mmu (wsub16 cpu.sp 2)
    ((((cpu.registers.a <<< 8) ||| cpu.registers.flags.to_u8)) % 256) hs0
  obtain ⟨m2, hw2, hr2, hp2⟩ := plainStore_write m1 (wadd16 (wsub16 cpu.sp 2) 1)
    (((((cpu.registers.a <<< 8) ||| cpu.registers.flags.to_u8)) >>> 8) % 256) hs1
  have hword : cpu.mmu.write_word (wsub16 cpu.sp 2)
      ((cpu.registers.a <<< 8) ||| cpu.registers.flags.to_u8) = some m2 := by
    unfold Mmu.write_word
    rw [hw1]
    simp only [Option.bind_eq_bind, Option.some_bind]
    exact hw2
  have hstep1 : cpu.step
      = some ({ cpu with mmu := m2, sp := wsub16 cpu.sp 2, pc := wadd16 cpu.pc 1 }, 3) := by
    rw [step_push_af cpu hpc, hword, Option.some_bind]
  have hb1 : wadd16 cpu.pc 1 ≤ 0xFFFF := by
    simp only [wadd16]
    omega
  have hfetch : m2.read_byte (wadd16 cpu.pc 1) = some 0xF1 := by
    rw [hp2 _ hb1 hpc1b, hp1 _ hb1 hpc1a, hpc1]
  have hs0r : m2.read_byte (wsub16 cpu.sp 2) = some cpu.registers.flags.to_u8 := by
    rw [hp2 _ (by simp only [wsub16]; omega) (by simp only [wadd16, wsub16]; omega), hr1,
      word_lo _ _ (to_u8_lt _)]
  have hs1r : m2.read_byte (wadd16 (wsub16 cpu.sp 2) 1) = some cpu.registers.a := by
    rw [hr2, word_hi _ _ (to_u8_lt _), Nat.mod_eq_of_lt ha]
  have hstep2 : ({ cpu with mmu := m2, sp := wsub16 cpu.sp 2, pc := wadd16 cpu.pc 1 } : Cpu).step
      = some (⟨{ cpu.registers with a := cpu.registers.a, flags := Flags.set_from_u8 cpu.registers.flags.to_u8 }, wadd16 (wadd16 cpu.pc 1) 1, wadd16 (wsub16 cpu.sp 2) 2, cpu.ime, cpu.state, m2⟩, 4) := by
    rw [step_pop_af { cpu with mmu := m2, sp := wsub16 cpu.sp 2, pc := wadd16 cpu.pc 1 }
        (by exact hfetch)]
    show (m2.read_byte (wsub16 cpu.sp 2)).bind _ = _
    rw [hs0r, Option.some_bind, hs1r, Option.some_bind]
  refine ⟨m2, ⟨{ cpu.registers with a := cpu.registers.a, flags := Flags.set_from_u8 cpu.registers.flags.to_u8 }, wadd16 (wadd16 cpu.pc 1) 1, wadd16 (wsub16 cpu.sp 2) 2, cpu.ime, cpu.state, m2⟩, hstep1, hs0r, to_u8_low_nibble _, hstep2, rfl, ?_, ?_, ?_⟩
  · show Flags.set_from_u8 (Flags.to_u8 cpu.registers.flags) = cpu.registers.flags
    exact set_from_to_u8 _
  · show wadd16 (wsub16 cpu.sp 2) 2 = cpu.sp
    simp only [wadd16, wsub16]
    omega
  · show wadd16 (wadd16 cpu.pc 1) 1 = wadd16 cpu.pc 2
    simp only [wadd16]
    omega


/-- A machine like cpuC5 but with the stack inside WRAM1 (SP = 0xD000,
stack slots 0xCFFE/0xCFFF), where PUSH AF / POP AF round-trips. -/
def cpuC5v : Cpu where
  registers := { Registers.new with a := 0x42 }
  pc := 0xC000
  sp := 0xD000
  ime := false
  state := .Running
  mmu := cpuC5.mmu

/-- Counterexample to C5 as stated: from cpuC5 (SP = 0xE002, the two
stack bytes in the echo region, A = 0x42), PUSH AF's write is discarded
and POP AF reads 0xFF, so A comes back 0xFF, not 0x42. -/
theorem c5_counterexample :
    (cpuC5.step.bind (fun p => p.1.step)).map (fun p => p.1.registers.a) = some 0xFF
      ∧ cpuC5.registers.a = 0x42 := ⟨rfl, rfl⟩

/-- Witness for the amended C5 at cpuC5v: every hypothesis holds and the
push/pop round trip restores A = 0x42, the flags and SP = 0xD000. -/
theorem c5_witness :
    ∃ m2 c2,
      cpuC5v.step
          = some ({ cpuC5v with mmu := m2, sp := wsub16 cpuC5v.sp 2, pc := wadd16 cpuC5v.pc 1 }, 3)
      ∧ m2.read_byte (wsub16 cpuC5v.sp 2) = some cpuC5v.registers.flags.to_u8
      ∧ cpuC5v.registers.flags.to_u8 % 16 = 0
      ∧ ({ cpuC5v with mmu := m2, sp := wsub16 cpuC5v.sp 2, pc := wadd16 cpuC5v.pc 1 } : Cpu).step
          = some (c2, 4)
      ∧ c2.registers.a = cpuC5v.registers.a
      ∧ c2.registers.flags = cpuC5v.registers.flags
      ∧ c2.sp = cpuC5v.sp
      ∧ c2.pc = wadd16 cpuC5v.pc 2 :=
  c5_amended cpuC5v (by decide) (by decide) (by unfold PlainStore; decide)
    (by unfold PlainStore; decide) rfl rfl (by decide) (by decide)


theorem paletteColor_a (sel : Nat) : (paletteColor sel).a = 255 := by
  unfold paletteColor
  rcases hs : sel &&& 0b11 with _ | _ | _ | k <;> rfl

theorem paletteLookup_a (byte z : Nat) : (paletteLookup byte z).a = 255 :=
  paletteColor_a _

theorem draw_window_a (m : Mmu) (line idx : Nat) :
    draw_window m line idx = zeroPix ∨ (draw_window m line idx).a = 255 := by
  unfold draw_window
  rcases m.get_window_pos with ⟨wy, wx⟩
  dsimp only
  split_ifs <;> first | exact Or.inl rfl | exact Or.inr (paletteLookup_a _ _)

theorem window_layer_a (m : Mmu) (line col : Nat) :
    ((if m.get_window_enable then draw_window m line else fun _ => zeroPix) col) = zeroPix
      ∨ ((if m.get_window_enable then draw_window m line else fun _ => zeroPix) col).a
          = 255 := by
  by_cases hw : m.get_window_enable
  · simp only [if_pos hw]
    exact draw_window_a m line col
  · simp only [if_neg hw]
    first | exact Or.inl rfl | exact Or.inl trivial

theorem composite_a (bgEn : Bool) (s w old : Pix) (z bgp : Nat)
    (hw : w = zeroPix ∨ w.a = 255) :
    (composite bgEn s w old z bgp).a = 255 := by
  unfold composite
  dsimp only
  split_ifs <;>
    first
      | rfl
      | exact paletteLookup_a _ _
      | tauto
      | (rcases hw with hz | ha
         · subst hz
           simp [zeroPix] at *
         · exact ha)

theorem composite_old_indep (bgEn : Bool) (s w old0 old1 : Pix) (z bgp : Nat)
    (h0 : old0.a ≠ 128) (h1 : old1.a = 255) :
    composite bgEn s w old1 z bgp = composite bgEn s w old0 z bgp := by
  unfold composite
  dsimp only
  by_cases hS : (s.r ≠ 0 ∨ s.g ≠ 0 ∨ s.b ≠ 0 ∨ s.a ≠ 0) ∧ s.a = 255
  · rw [if_pos hS, if_pos hS]
  · rw [if_neg hS, if_neg hS]
    by_cases hNZ : s.r ≠ 0 ∨ s.g ≠ 0 ∨ s.b ≠ 0 ∨ s.a ≠ 0
    · simp only [if_pos hNZ]
    · simp only [if_neg hNZ]
      split_ifs <;> first | rfl | omega

/-- The pixel draw_scanline composes for column `col` of its line: the
layers, the old frame-buffer pixel and the compositing of its per-pixel
loop body, named for reuse across the four byte positions. -/
def scanPix (m : Mmu) (f : Nat → Nat) (scx scy line col : Nat) : Pix :=
  composite m.get_bg_enable
    ((if m.get_obj_enable then draw_sprites m line else fun _ => zeroPix) col)
    ((if m.get_window_enable then draw_window m line else fun _ => zeroPix) col)
    ⟨f (line * 160 * 4 + col * 4), f (line * 160 * 4 + col * 4 + 1),
      f (line * 160 * 4 + col * 4 + 2), f (line * 160 * 4 + col * 4 + 3)⟩
    (bgZ m scx scy line col) m.bg_palette_byte

theorem draw_scanline_out (m : Mmu) (f : Nat → Nat) (scx scy line j : Nat)
    (hj : ¬(line * 160 * 4 ≤ j ∧ j < line * 160 * 4 + 640)) :
    draw_scanline m f scx scy line j = f j := by
  unfold draw_scanline
  dsimp only
  rw [if_neg hj]

theorem draw_scanline_b0 (m : Mmu) (f : Nat → Nat) (scx scy line col : Nat)
    (hcol : col < 160) :
    draw_scanline m f scx scy line (line * 160 * 4 + col * 4)
      = (scanPix m f scx scy line col).r := by
  unfold draw_scanline
  dsimp only
  rw [if_pos ⟨by omega, by omega⟩,
    show line * 160 * 4 + col * 4 - line * 160 * 4 = col * 4 from by omega,
    show col * 4 / 4 = col from by omega, show col * 4 % 4 = 0 from by omega]
  rfl

theorem draw_scanline_b1 (m : Mmu) (f : Nat → Nat) (scx scy line col : Nat)
    (hcol : col < 160) :
    draw_scanline m f scx scy line (line * 160 * 4 + col * 4 + 1)
      = (scanPix m f scx scy line col).g := by
  unfold draw_scanline
  dsimp only
  rw [if_pos ⟨by omega, by omega⟩,
    show line * 160 * 4 + col * 4 + 1 - line * 160 * 4 = col * 4 + 1 from by omega,
    show (col * 4 + 1) / 4 = col from by omega, show (col * 4 + 1) % 4 = 1 from by omega]
  rfl

theorem draw_scanline_b2 (m : Mmu) (f : Nat → Nat) (scx scy line col : Nat)
    (hcol : col < 160) :
    draw_scanline m f scx scy line (line * 160 * 4 + col * 4 + 2)
      = (scanPix m f scx scy line col).b := by
  unfold draw_scanline
  dsimp only
  rw [if_pos ⟨by omega, by omega⟩,
    show line * 160 * 4 + col * 4 + 2 - line * 160 * 4 = col * 4 + 2 from by omega,
    show (col * 4 + 2) / 4 = col from by omega, show (col * 4 + 2) % 4 = 2 from by omega]
  rfl

theorem draw_scanline_b3 (m : Mmu) (f : Nat → Nat) (scx scy line col : Nat)
    (hcol : col < 160) :
    draw_scanline m f scx scy line (line * 160 * 4 + col * 4 + 3)
      = (scanPix m f scx scy line col).a := by
  unfold draw_scanline
  dsimp only
  rw [if_pos ⟨by omega, by omega⟩,
    show line * 160 * 4 + col * 4 + 3 - line * 160 * 4 = col * 4 + 3 from by omega,
    show (col * 4 + 3) / 4 = col from by omega, show (col * 4 + 3) % 4 = 3 from by omega]
  rfl

/-- C9 (amended): draw_scanline is pure in the MMU state and its scx,
scy, line arguments except for its read of the old frame's alpha bytes:
whenever no alpha byte of the line's region holds the sprite-priority
marker 128, a second run over its own output writes exactly the same
bytes, so two runs with no intervening MMU mutation coincide. -/
theorem c9_amended (m : Mmu) (frame : Nat → Nat) (scx scy line : Nat)
    (ha : ∀ col, col < 160 → frame (line * 160 * 4 + col * 4 + 3) ≠ 128) :
    draw_scanline m (draw_scanline m frame scx scy line) scx scy line
      = draw_scanline m frame scx scy line := by
  funext j
  by_cases hj : line * 160 * 4 ≤ j ∧ j < line * 160 * 4 + 640
  · obtain ⟨col, hcol, hj4⟩ : ∃ col, col < 160 ∧
        (j = line * 160 * 4 + col * 4 ∨ j = line * 160 * 4 + col * 4 + 1 ∨
          j = line * 160 * 4 + col * 4 + 2 ∨ j = line * 160 * 4 + col * 4 + 3) :=
      ⟨(j - line * 160 * 4) / 4, by omega, by omega⟩
    have hps : scanPix m (draw_scanline m frame scx scy line) scx scy line col
        = scanPix m frame scx scy line col := by
      unfold scanPix
      rw [draw_scanline_b0 m frame scx scy line col hcol,
        draw_scanline_b1 m frame scx scy line col hcol,
        draw_scanline_b2 m frame scx scy line col hcol,
        draw_scanline_b3 m frame scx scy line col hcol]
      exact composite_old_indep _ _ _ _ _ _ _ (ha col hcol)
        (composite_a _ _ _ _ _ _ (window_layer_a m line col))
    rcases hj4 with rfl | rfl | rfl | rfl
    · rw [draw_scanline_b0 m (draw_scanline m frame scx scy line) scx scy line col hcol,
        draw_scanline_b0 m frame scx scy line col hcol, hps]
    · rw [draw_scanline_b1 m (draw_scanline m frame scx scy line) scx scy line col hcol,
        draw_scanline_b1 m frame scx scy line col hcol, hps]
    · rw [draw_scanline_b2 m (draw_scanline m frame scx scy line) scx scy line col hcol,
        draw_scanline_b2 m frame scx scy line col hcol, hps]
    · rw [draw_scanline_b3 m (draw_scanline m frame scx scy line) scx scy line col hcol,
        draw_scanline_b3 m frame scx scy line col hcol, hps]
  · rw [draw_scanline_out m (draw_scanline m frame scx scy line) scx scy line j hj,
      draw_scanline_out m frame scx scy line j hj]

/-- Counterexample to C9 as stated: with only the background enabled
(mmuC9) over a frame whose first pixel carries the priority-marker alpha
128 (frameC9), the first run writes byte 0 as 0 (the old pixel promoted
to opaque) but the second run, reading the first run's alpha 255, writes
the background palette color byte 232: the two runs differ. -/
theorem c9_counterexample :
    draw_scanline mmuC9 frameC9 0 0 0 0 = 0
      ∧ draw_scanline mmuC9 (draw_scanline mmuC9 frameC9 0 0 0) 0 0 0 0 = 232 :=
  ⟨rfl, rfl⟩

/-- Witness for the amended C9: over the all-zero frame (no alpha byte
is 128) with mmuC9, the two runs of the scanline renderer coincide. -/
theorem c9_witness :
    draw_scanline mmuC9 (draw_scanline mmuC9 frameZ 0 0 0) 0 0 0
      = draw_scanline mmuC9 frameZ 0 0 0 :=
  c9_amended mmuC9 frameZ 0 0 0 (fun col hcol => by simp [frameZ])
end Trashgb
